import Mathlib

/-!
Verification development for `examples/voxceleb/sv0/local/train.py` of the
PaddleSpeech repository: a speaker-verification training script.

The script is shallowly embedded: its control flow is translated into Lean
functions over an explicit argument namespace (the object produced by the
argparse parser) and an environment recording the behaviour of the external
collaborators (the distributed runtime, the dataset loaders, `paddle.load`).
A run produces a trace of externally visible events together with an
`Except` outcome (Python exceptions are modelled explicitly).
-/

set_option autoImplicit false

namespace VoxTrain

/-- Python exceptions relevant to the script (line 99 catches
`FileExistsError`; line 106 catches `ValueError`). -/
inductive PyExc where
  | attributeError (name : String)
  | fileExistsError
  | fileNotFoundError
  | valueError
  | zeroDivisionError
  | nameError (name : String)
  | indexError
  deriving DecidableEq

/-- Python values stored in the argparse namespace.  `float` values are
carried exactly (no arithmetic is ever performed on them by the script). -/
inductive PyVal where
  | str (s : String)
  | int (i : Int)
  | float (q : Rat)
  | pynone
  deriving DecidableEq

/-- Python truthiness, used by `if args.load_checkpoint:` (line 84). -/
def PyVal.truthy : PyVal → Bool
  | .str s => s ≠ ""
  | .int i => i ≠ 0
  | .float q => q ≠ 0
  | .pynone => false

/-- Read an int value out of a namespace entry (the argparse converters
guarantee the stored value has the right constructor). -/
def PyVal.toInt : PyVal → Int
  | .int i => i
  | _ => 0

/-- Read a string value out of a namespace entry. -/
def PyVal.toStrV : PyVal → String
  | .str s => s
  | _ => ""

/-- Externally visible events of a run of `main`, in source order of the
call sites they model (lines 43-234 of train.py). -/
inductive Event where
  | setDevice (d : String)
  | initParallelEnv
  | getWorldSize
  | getRank
  | loadVoxCeleb (split : String) (dir : String)
  | buildEcapaTdnn
  | buildSpeakerId
  | buildLRScheduler (stepSize : Nat)
  | buildOptimizer
  | buildCriterion
  | paddleLoad (path : String)
  | setModelStateDict
  | setOptStateDict
  | printCkptLoaded
  | printScratch
  | printRestore (epoch : Int)
  | buildTrainSampler (batchSize : Int) (shuffle : Bool)
  | buildTrainLoader (numWorkers : Int)
  | timerStart
  | modelTrain (epoch : Int)
  | trainStep (epoch : Int) (batchIdx : Nat)
  | timerCount
  | logTrain (epoch : Int) (step : Nat)
  | barrier
  | buildDevSampler (batchSize : Int) (shuffle : Bool)
  | buildDevLoader (numWorkers : Int)
  | modelEval
  | printEvaluate
  | evalStep (batchIdx : Nat)
  | evalReport
  | printSaving (dir : String)
  | save (path : String)
  | getattr (name : String)
  deriving DecidableEq

instance exceptDecEq {e a : Type} [DecidableEq e] [DecidableEq a] :
    DecidableEq (Except e a) := fun x y =>
  match x, y with
  | Except.ok v, Except.ok w =>
    if h : v = w then isTrue (by rw [h])
    else isFalse (fun hc => by cases hc; exact h rfl)
  | Except.error v, Except.error w =>
    if h : v = w then isTrue (by rw [h])
    else isFalse (fun hc => by cases hc; exact h rfl)
  | Except.ok _, Except.error _ => isFalse (fun hc => by cases hc)
  | Except.error _, Except.ok _ => isFalse (fun hc => by cases hc)

/-- The argparse namespace: an association list from attribute names to
values (`args.X` is an attribute lookup on it). -/
abbrev NS := List (String × PyVal)

/-- Python attribute lookup on the namespace: `getattr(args, n)`. -/
def nsLookup : NS → String → Option PyVal
  | [], _ => Option.none
  | (k, v) :: rest, n => if n = k then some v else nsLookup rest n

/-- Python attribute assignment `args.n = v` (line 85 reassigns
`args.load_checkpoint`). -/
def nsSet : NS → String → PyVal → NS
  | [], n, v => [(n, v)]
  | (k, w) :: rest, n, v =>
    if n = k then (n, v) :: rest else (k, w) :: nsSet rest n v

/-- The result of running a code fragment: the trace of events it emitted
and either a value or the Python exception that escaped it. -/
structure Res (α : Type) where
  tr : List Event
  out : Except PyExc α

instance : Monad Res where
  pure a := ⟨[], Except.ok a⟩
  bind x f :=
    match x.out with
    | .ok a => ⟨x.tr ++ (f a).tr, (f a).out⟩
    | .error e => ⟨x.tr, .error e⟩

/-- Emit one event. -/
def emit (e : Event) : Res Unit := ⟨[e], Except.ok ()⟩

/-- Raise a Python exception. -/
def raise {α : Type} (e : PyExc) : Res α := ⟨[], Except.error e⟩

/-- Raise the given exception if one is supplied (models an external call
that either returns or raises). -/
def raiseOpt : Option PyExc → Res Unit
  | some e => raise e
  | Option.none => pure ()

/-- `args.n`: attribute access on the namespace; missing attributes raise
`AttributeError`, exactly as in Python. -/
def getattrR (ns : NS) (n : String) : Res PyVal :=
  ⟨[Event.getattr n],
    match nsLookup ns n with
    | some v => Except.ok v
    | Option.none => Except.error (PyExc.attributeError n)⟩

/-- Python `a % b` on ints: floor-signed modulus, `ZeroDivisionError` on a
zero divisor. -/
def pyMod (a b : Int) : Res Int :=
  if b = 0 then raise PyExc.zeroDivisionError else pure (Int.fmod a b)

/-- Python `range(a, b)` over ints, as the list `[a, a+1, ..., b-1]`. -/
def pyRange (a b : Int) : List Int :=
  (List.range (b - a).toNat).map (fun i => a + (i : Int))

/-- Python `s[-1]` of a string, when it exists. -/
def pyLastChar (s : String) : Option Char :=
  s.data.getLast?

/-- Python `int(c)` on a one-character string: its value when `c` is an
ASCII decimal digit, otherwise a `ValueError` (modelled as `none`; other
Unicode decimal digits are not modelled). -/
def pyIntOfDigit (c : Char) : Option Nat :=
  if 48 ≤ c.toNat ∧ c.toNat ≤ 57 then some (c.toNat - 48) else Option.none

/-- Whether the first character of the string is a slash. -/
def headSlash (s : String) : Bool :=
  match s.data with
  | c :: _ => c = '/'
  | [] => false

/-- Whether the last character of the string is a slash. -/
def lastSlash (s : String) : Bool :=
  match s.data.getLast? with
  | some c => c = '/'
  | Option.none => false

/-- `os.path.join(a, b)` for two POSIX path components. -/
def pyJoin (a b : String) : String :=
  if headSlash b then b
  else if a = "" ∨ lastSlash a then a ++ b
  else a ++ "/" ++ b

/-- Strip all trailing slashes, as `str.rstrip('/')` does. -/
def rstripSlashes (s : String) : String :=
  String.mk ((s.data.reverse.dropWhile (fun c => c = '/')).reverse)

/-- `os.path.expanduser` for POSIX: a leading `~` is replaced by the HOME
directory, a leading `~user` by that user's home directory when the
password database knows the user, otherwise the path is returned
unchanged. -/
def expanduser (home : String) (pwDir : String → Option String)
    (path : String) : String :=
  match path.data with
  | '~' :: rest =>
    let name := String.mk (rest.takeWhile (fun c => c ≠ '/'))
    let tail := String.mk (rest.dropWhile (fun c => c ≠ '/'))
    let userhome := if name = "" then some home else pwDir name
    (match userhome with
      | Option.none => path
      | some uh =>
        let r := rstripSlashes uh ++ tail
        if r = "" then "/" else r)
  | _ => path

/-- `str.split('/')`: split on every slash, keeping empty components. -/
def splitSlash : List Char → List Char → List String
  | [], acc => [String.mk acc.reverse]
  | c :: rest, acc =>
    if c = '/' then String.mk acc.reverse :: splitSlash rest []
    else splitSlash rest (c :: acc)

/-- `'/'.join(components)`. -/
def joinSlash : List String → String
  | [] => ""
  | [x] => x
  | x :: y :: rest => x ++ "/" ++ joinSlash (y :: rest)

/-- The number of leading slashes `posixpath.normpath` preserves: two for
exactly two leading slashes, one for one or for three and more, zero for
a relative path. -/
def initialSlashes (p : String) : Nat :=
  match p.data with
  | '/' :: '/' :: '/' :: _ => 1
  | '/' :: '/' :: _ => 2
  | '/' :: _ => 1
  | _ => 0

/-- One step of `posixpath.normpath`'s component scan, on the reversed
accumulator of kept components. -/
def normStep (root : Bool) (acc : List String) (c : String) : List String :=
  if c = "" ∨ c = "." then acc
  else if c ≠ ".." then c :: acc
  else
    match acc with
    | [] => if root then [] else [".."]
    | h :: t => if h = ".." then c :: acc else t

/-- `posixpath.normpath`: collapse repeated separators, `.` and `..`
components; the empty path normalises to `.`; one or two leading slashes
are preserved. -/
def normpath (p : String) : String :=
  if p = "" then "."
  else
    let slashes : Nat := initialSlashes p
    let comps := splitSlash p.data []
    let rev := comps.foldl (normStep (slashes ≠ 0)) []
    let res := String.mk (List.replicate slashes '/') ++
      joinSlash rev.reverse
    if res = "" then "." else res

/-- `os.path.abspath` for POSIX: join onto the working directory when the
path is relative, then normalise. -/
def posixAbspath (cwd p : String) : String :=
  if headSlash p then normpath p else normpath (pyJoin cwd p)

/-- The behaviour of the external collaborators of `main`: the distributed
runtime (world size, rank), the sampler length (`len(train_sampler)`,
line 122), the dev loader's batch count, the outcome of the two
`paddle.load` calls (lines 89 and 94: `none` means the file loads, an
exception means the call raises it), and the process environment used by
`os.path.expanduser`/`os.path.abspath` (HOME, the password database, the
working directory). -/
structure Env where
  nranks : Nat
  localRank : Nat
  stepsPerEpoch : Nat
  devBatches : Nat
  loadModelExc : Option PyExc
  loadOptExc : Option PyExc
  cwd : String
  home : String
  pwDir : String → Option String

/-- The values carried by the eight flags the argparse parser defines
(lines 240-270).  `load_checkpoint` defaults to `None`, hence the
`Option`. -/
structure Args where
  device : String
  data_dir : String
  learning_rate : Rat
  load_checkpoint : Option String
  batch_size : Int
  num_workers : Int
  epochs : Int
  log_freq : Int

/-- The namespace the parser produces: exactly one attribute per
`add_argument` call, named by the flag's dest (dashes become
underscores). -/
def Args.toNamespace (a : Args) : NS :=
  [("device", PyVal.str a.device),
   ("data_dir", PyVal.str a.data_dir),
   ("learning_rate", PyVal.float a.learning_rate),
   ("load_checkpoint",
     match a.load_checkpoint with
     | some s => PyVal.str s
     | Option.none => PyVal.pynone),
   ("batch_size", PyVal.int a.batch_size),
   ("num_workers", PyVal.int a.num_workers),
   ("epochs", PyVal.int a.epochs),
   ("log_freq", PyVal.int a.log_freq)]

/-- The option strings of the eight `add_argument` calls, in source order
(lines 240-270 of train.py). -/
def parserFlags : List String :=
  ["--device", "--data-dir", "--learning-rate", "--load-checkpoint",
   "--batch-size", "--num-workers", "--epochs", "--log_freq"]

/-- argparse's dest for a long flag: strip the leading dashes and turn the
remaining dashes into underscores. -/
def argDest (flag : String) : String :=
  String.mk ((flag.drop 2).data.map (fun c => if c = '-' then '_' else c))

/-- The attribute names the parsed namespace defines. -/
def namespaceAttrs : List String := parserFlags.map argDest

/-- Line 188: the batch size handed to the dev `BatchSampler` is the Python
floor quotient `args.batch_size // 4`. -/
def devBatchSize (bs : Int) : Int := Int.fdiv bs 4

/-- The dev-evaluation loop, lines 202-217: one step per batch of the dev
loader (forward pass, argmax, accuracy counting). -/
def devLoop : Nat → Res Unit
  | 0 => pure ()
  | n + 1 => do
    let _ ← devLoop n
    emit (Event.evalStep n)

/-- Lines 180-234 after the frequency test: rank guard, dev evaluation and
checkpoint write.  Non-zero ranks hit the barrier and continue (lines
181-184); rank 0 builds the dev loader, evaluates, then saves model and
optimizer state under `args.checkpoint_dir/epoch_{epoch}`. -/
def saveBlock (env : Env) (ns : NS) (epoch : Int) : Res Unit :=
  if env.localRank ≠ 0 then emit Event.barrier
  else do
    let bs ← getattrR ns "batch_size"
    let _ ← emit (Event.buildDevSampler (devBatchSize bs.toInt) false)
    let nw ← getattrR ns "num_workers"
    let _ ← emit (Event.buildDevLoader nw.toInt)
    let _ ← emit Event.modelEval
    let _ ← emit Event.printEvaluate
    let _ ← devLoop env.devBatches
    let _ ← emit Event.evalReport
    let cd ← getattrR ns "checkpoint_dir"
    let saveDir := pyJoin cd.toStrV ("epoch_" ++ toString epoch)
    let _ ← emit (Event.printSaving saveDir)
    let _ ← emit (Event.save (pyJoin saveDir "model.pdparams"))
    let _ ← emit (Event.save (pyJoin saveDir "model.pdopt"))
    if 1 < env.nranks then emit Event.barrier else pure ()

/-- One iteration of the batch loop, lines 133-178: feature extraction,
forward/backward/step (coarsely, one `trainStep` event), `timer.count()`,
then the periodic logging branch guarded by
`(batch_idx + 1) % args.log_freq == 0 and local_rank == 0` (line 163; the
branch reads `args.log_freq` again at line 165 and `args.epochs` at
line 169). -/
def batchBody (env : Env) (ns : NS) (epoch : Int) (i : Nat) : Res Unit := do
  let _ ← emit (Event.trainStep epoch i)
  let _ ← emit Event.timerCount
  let lf ← getattrR ns "log_freq"
  let m ← pyMod ((i : Int) + 1) lf.toInt
  if m = 0 ∧ env.localRank = 0 then do
    let _ ← getattrR ns "log_freq"
    let _ ← getattrR ns "epochs"
    emit (Event.logTrain epoch (i + 1))
  else pure ()

/-- The batch loop of one epoch over the indices of the train loader. -/
def batchLoop (env : Env) (ns : NS) (epoch : Int) : List Nat → Res Unit
  | [] => pure ()
  | i :: rest => do
    let _ ← batchBody env ns epoch i
    batchLoop env ns epoch rest

/-- Line 180: `if epoch % args.save_freq == 0 and batch_idx + 1 ==
steps_per_epoch:`.  Python evaluates `args.save_freq` first (an attribute
lookup), then the modulus, and only when the left conjunct holds the right
one, where `batch_idx` is unbound if the batch loop ran zero times. -/
def epochTail (env : Env) (ns : NS) (epoch : Int) : Res Unit := do
  let sf ← getattrR ns "save_freq"
  let m ← pyMod epoch sf.toInt
  if m = 0 then do
    let c2 ←
      if env.stepsPerEpoch = 0 then raise (PyExc.nameError "batch_idx")
      else pure (env.stepsPerEpoch - 1 + 1 == env.stepsPerEpoch)
    if c2 then saveBlock env ns epoch else pure ()
  else pure ()

/-- One epoch of the training loop, lines 127-234: `model.train()`, the
batch loop, then the save-frequency check and (conditionally) the
evaluation/checkpoint block. -/
def runEpoch (env : Env) (ns : NS) (epoch : Int) : Res Unit := do
  let _ ← emit (Event.modelTrain epoch)
  let _ ← batchLoop env ns epoch (List.range env.stepsPerEpoch)
  epochTail env ns epoch

/-- The training loop over the epochs of `range(start_epoch + 1,
args.epochs + 1)` (line 126). -/
def epochLoop (env : Env) (ns : NS) : List Int → Res Unit
  | [] => pure ()
  | e :: rest => do
    let _ ← runEpoch env ns e
    epochLoop env ns rest

/-- The body of the `try` at lines 87-98: load and install the model state
dict, then the optimizer state dict, then (rank 0 only) report the
checkpoint as loaded.  The f-string at line 98 reads
`args.load_checkpoint` again. -/
def tryLoadBody (env : Env) (ns2 : NS) : Res Unit := do
  let p ← getattrR ns2 "load_checkpoint"
  let _ ← emit (Event.paddleLoad (pyJoin p.toStrV "model.pdparams"))
  let _ ← raiseOpt env.loadModelExc
  let _ ← emit Event.setModelStateDict
  let p2 ← getattrR ns2 "load_checkpoint"
  let _ ← emit (Event.paddleLoad (pyJoin p2.toStrV "model.pdopt"))
  let _ ← raiseOpt env.loadOptExc
  let _ ← emit Event.setOptStateDict
  if env.localRank = 0 then do
    let _ ← getattrR ns2 "load_checkpoint"
    emit Event.printCkptLoaded
  else pure ()

/-- Lines 87-101: the `try` body together with its `except
FileExistsError` handler, which prints the train-from-scratch message on
rank 0.  Any exception other than `FileExistsError` escapes. -/
def tryLoadCkpt (env : Env) (ns2 : NS) : Res Unit :=
  match (tryLoadBody env ns2).out with
  | Except.error PyExc.fileExistsError =>
    if env.localRank = 0 then
      ⟨(tryLoadBody env ns2).tr ++ [Event.printScratch], Except.ok ()⟩
    else ⟨(tryLoadBody env ns2).tr, Except.ok ()⟩
  | _ => tryLoadBody env ns2

/-- Lines 103-107: `start_epoch = int(args.load_checkpoint[-1])` inside a
`try` that swallows `ValueError`; the restore message prints only when the
conversion succeeds.  An index error on an empty string would escape. -/
def parseStartEpoch (ns2 : NS) : Res Int := do
  let p ← getattrR ns2 "load_checkpoint"
  match pyLastChar p.toStrV with
  | Option.none => raise PyExc.indexError
  | some c =>
    match pyIntOfDigit c with
    | some d => do
      let _ ← emit (Event.printRestore (d : Int))
      pure (d : Int)
    | Option.none => pure 0

/-- The checkpoint path after lines 85-86 have rewritten it:
`os.path.abspath(os.path.expanduser(args.load_checkpoint))`. -/
def resolvedCkptPath (env : Env) (s : String) : String :=
  posixAbspath env.cwd (expanduser env.home env.pwDir s)

/-- Stage 7, lines 83-107: `start_epoch = 0`; when `args.load_checkpoint`
is truthy it is first replaced by its expanded absolute form (lines
85-86), the checkpoint is loaded under the `except FileExistsError`
handler, and the start epoch is parsed from the path's last character.
Returns the (possibly updated) namespace and the start epoch. -/
def resumeStage (env : Env) (ns : NS) : Res (NS × Int) := do
  let lc ← getattrR ns "load_checkpoint"
  if lc.truthy then do
    let raw ← getattrR ns "load_checkpoint"
    let _ ← tryLoadCkpt env
      (nsSet ns "load_checkpoint" (PyVal.str (resolvedCkptPath env raw.toStrV)))
    let se ← parseStartEpoch
      (nsSet ns "load_checkpoint" (PyVal.str (resolvedCkptPath env raw.toStrV)))
    pure
      (nsSet ns "load_checkpoint" (PyVal.str (resolvedCkptPath env raw.toStrV)),
        se)
  else pure (ns, 0)

/-- Stages 0-6, lines 41-79: device, distributed init, the two dataset
loads, backbone, speaker-id model, LR schedule (step size
`140000 // nranks`, line 73) and optimizer, loss. -/
def stagesPre (env : Env) (ns : NS) : Res Unit := do
  let d ← getattrR ns "device"
  let _ ← emit (Event.setDevice d.toStrV)
  let _ ← emit Event.initParallelEnv
  let _ ← emit Event.getWorldSize
  let _ ← emit Event.getRank
  let dd ← getattrR ns "data_dir"
  let _ ← emit (Event.loadVoxCeleb "train" dd.toStrV)
  let dd2 ← getattrR ns "data_dir"
  let _ ← emit (Event.loadVoxCeleb "dev" dd2.toStrV)
  let _ ← emit Event.buildEcapaTdnn
  let _ ← emit Event.buildSpeakerId
  let _ ← getattrR ns "learning_rate"
  let _ ← emit (Event.buildLRScheduler (140000 / env.nranks))
  let _ ← emit Event.buildOptimizer
  emit Event.buildCriterion

/-- Stages 8-9 before the loop, lines 110-124: train sampler and loader,
then the timer (`Timer(steps_per_epoch * args.epochs)`, line 123).
Returns nothing the loop needs beyond the namespace it was given. -/
def stagesMid (_env : Env) (ns : NS) : Res Unit := do
  let bs ← getattrR ns "batch_size"
  let _ ← emit (Event.buildTrainSampler bs.toInt true)
  let nw ← getattrR ns "num_workers"
  let _ ← emit (Event.buildTrainLoader nw.toInt)
  let _ ← getattrR ns "epochs"
  emit Event.timerStart

/-- The whole of `main` (lines 41-234) over a parsed namespace. -/
def runMain (env : Env) (ns : NS) : Res Unit := do
  let _ ← stagesPre env ns
  let r ← resumeStage env ns
  let _ ← stagesMid env r.1
  let ep ← getattrR r.1 "epochs"
  epochLoop env r.1 (pyRange (r.2 + 1) (ep.toInt + 1))

/-- The stage (per the numbered stage comments of train.py) an event
belongs to: 0 device, 1 distributed init, 2 data, 3 backbone, 4 model,
5 optimizer, 6 loss, 7 checkpoint resume, 8 sampler/loader, 9 the
training loop (timer included). -/
def stageOf : Event → Nat
  | .getattr n =>
    if n = "device" then 0
    else if n = "data_dir" then 2
    else if n = "learning_rate" then 5
    else if n = "load_checkpoint" then 7
    else if n = "batch_size" ∨ n = "num_workers" then 8
    else 9
  | .setDevice _ => 0
  | .initParallelEnv => 1
  | .getWorldSize => 1
  | .getRank => 1
  | .loadVoxCeleb _ _ => 2
  | .buildEcapaTdnn => 3
  | .buildSpeakerId => 4
  | .buildLRScheduler _ => 5
  | .buildOptimizer => 5
  | .buildCriterion => 6
  | .paddleLoad _ => 7
  | .setModelStateDict => 7
  | .setOptStateDict => 7
  | .printCkptLoaded => 7
  | .printScratch => 7
  | .printRestore _ => 7
  | .buildTrainSampler _ _ => 8
  | .buildTrainLoader _ => 8
  | _ => 9

/-- Events that write a checkpoint file (`paddle.save`, lines 228-231). -/
def isSaveEvent : Event → Bool
  | .save _ => true
  | _ => false

/-- Events of the dev evaluation, lines 186-222. -/
def isEvalEvent : Event → Bool
  | .buildDevSampler _ _ => true
  | .buildDevLoader _ => true
  | .modelEval => true
  | .printEvaluate => true
  | .evalStep _ => true
  | .evalReport => true
  | _ => false

/-- Events of the training loop proper (epoch start and batch steps). -/
def isTrainEvent : Event → Bool
  | .modelTrain _ => true
  | .trainStep _ _ => true
  | _ => false

/-- The framework's inter-process coordination primitives the script
calls: `init_parallel_env`, `get_world_size`, `get_rank` (lines 46-48)
and `barrier` (lines 182, 234). -/
def isCoordEvent : Event → Bool
  | .initParallelEnv => true
  | .getWorldSize => true
  | .getRank => true
  | .barrier => true
  | _ => false

/-- Classifier for the events the epoch loop can emit when the namespace
lacks `save_freq` (every parser-produced namespace does). -/
def isLoopEvent : Event → Bool
  | .modelTrain _ => true
  | .trainStep _ _ => true
  | .timerCount => true
  | .logTrain _ _ => true
  | .getattr n => n = "log_freq" ∨ n = "epochs" ∨ n = "save_freq"
  | _ => false

/-- Classifier for the events the resume stage can emit. -/
def isResumeEvent : Event → Bool
  | .getattr n => n = "load_checkpoint"
  | .paddleLoad _ => true
  | .setModelStateDict => true
  | .setOptStateDict => true
  | .printCkptLoaded => true
  | .printScratch => true
  | .printRestore _ => true
  | _ => false

/-- The value `int(r[-1])` would give on the string `r` when it parses,
and 0 otherwise. -/
def lastDigitVal (r : String) : Int :=
  match pyLastChar r with
  | some c =>
    match pyIntOfDigit c with
    | some d => (d : Int)
    | Option.none => 0
  | Option.none => 0

/-- The start epoch `main` ends up using: 0 without a truthy
`--load-checkpoint`; otherwise the value of the last character of the
expanded absolute checkpoint path when that character is a decimal digit,
and 0 when it is not (the `ValueError` is swallowed, lines 103-107). -/
def startEpochOf (env : Env) (a : Args) : Int :=
  match a.load_checkpoint with
  | Option.none => 0
  | some s => if s = "" then 0 else lastDigitVal (resolvedCkptPath env s)

/-- The checkpoint-load outcomes after which execution continues past the
`try` at lines 87-101: both loads succeed, or the first raise out of the
body is a `FileExistsError` (the only exception the handler catches). -/
def loadOutcomeOk (env : Env) : Prop :=
  (env.loadModelExc = Option.none ∧
    (env.loadOptExc = Option.none ∨
      env.loadOptExc = some PyExc.fileExistsError)) ∨
  env.loadModelExc = some PyExc.fileExistsError

/-- The pre-loop stages can only stop a run at the checkpoint load, and
only when `--load-checkpoint` was given and truthy. -/
def preLoopOk (env : Env) (a : Args) : Prop :=
  ∀ s : String, a.load_checkpoint = some s → s ≠ "" → loadOutcomeOk env

/-- Events the batch loop and the save-frequency check can emit (the
epoch-start marker excluded). -/
def isBatchEvent : Event → Bool
  | .trainStep _ _ => true
  | .timerCount => true
  | .logTrain _ _ => true
  | .getattr n => n = "log_freq" ∨ n = "epochs" ∨ n = "save_freq"
  | _ => false

/-- Events stages 0-6 can emit. -/
def isPreEvent : Event → Bool
  | .setDevice _ => true
  | .initParallelEnv => true
  | .getWorldSize => true
  | .getRank => true
  | .loadVoxCeleb _ _ => true
  | .buildEcapaTdnn => true
  | .buildSpeakerId => true
  | .buildLRScheduler _ => true
  | .buildOptimizer => true
  | .buildCriterion => true
  | .getattr n => n = "device" ∨ n = "data_dir" ∨ n = "learning_rate"
  | _ => false

/-- Events stage 8 and the timer can emit. -/
def isMidEvent : Event → Bool
  | .buildTrainSampler _ _ => true
  | .buildTrainLoader _ => true
  | .timerStart => true
  | .getattr n => n = "batch_size" ∨ n = "num_workers" ∨ n = "epochs"
  | _ => false

/-- Events the checkpoint-load try block can emit. -/
def isTryEvent : Event → Bool
  | .getattr n => n = "load_checkpoint"
  | .paddleLoad _ => true
  | .setModelStateDict => true
  | .setOptStateDict => true
  | .printCkptLoaded => true
  | .printScratch => true
  | _ => false

/-- The namespace after lines 85-86 replaced `args.load_checkpoint` by the
expanded absolute path `r`. -/
def nsResolved (a : Args) (r : String) : NS :=
  nsSet a.toNamespace "load_checkpoint" (PyVal.str r)

/-- The events of stages 0-6 on a parser-produced namespace. -/
def preTrace (env : Env) (a : Args) : List Event :=
  [Event.getattr "device", Event.setDevice a.device, Event.initParallelEnv,
   Event.getWorldSize, Event.getRank, Event.getattr "data_dir",
   Event.loadVoxCeleb "train" a.data_dir, Event.getattr "data_dir",
   Event.loadVoxCeleb "dev" a.data_dir, Event.buildEcapaTdnn,
   Event.buildSpeakerId, Event.getattr "learning_rate",
   Event.buildLRScheduler (140000 / env.nranks), Event.buildOptimizer,
   Event.buildCriterion]

/-- The events of stage 8 and the timer on a parser-produced namespace. -/
def midTrace (a : Args) : List Event :=
  [Event.getattr "batch_size", Event.buildTrainSampler a.batch_size true,
   Event.getattr "num_workers", Event.buildTrainLoader a.num_workers,
   Event.getattr "epochs", Event.timerStart]

/-- A single-process environment with a one-batch train sampler and no
checkpoint activity, used to instantiate the theorems on concrete runs. -/
def envA : Env :=
  { nranks := 1, localRank := 0, stepsPerEpoch := 1, devBatches := 1,
    loadModelExc := Option.none, loadOptExc := Option.none,
    cwd := "/w", home := "/root", pwDir := fun _ => Option.none }

/-- The parser's default argument values (lines 240-270): device cpu,
data dir ./data/, learning rate 1e-8, no checkpoint, batch size 64,
0 workers, 50 epochs, log every 10 steps. -/
def argsA : Args :=
  { device := "cpu", data_dir := "./data/", learning_rate := 1 / 100000000,
    load_checkpoint := Option.none, batch_size := 64, num_workers := 0,
    epochs := 50, log_freq := 10 }

/-- Default arguments except for a checkpoint path with a trailing slash
(its raw last character is `/`, but the absolutised path ends in `5`). -/
def argsB : Args :=
  { argsA with load_checkpoint := some "/w/epoch_5/", epochs := 9 }

/-- Default arguments with a checkpoint path ending in the digit 3. -/
def argsC : Args :=
  { argsA with load_checkpoint := some "/w/epoch_3", epochs := 9 }

/-- `envA` with `paddle.load` of the model parameters raising
`FileNotFoundError` (the file does not exist). -/
def envFNF : Env := { envA with loadModelExc := some PyExc.fileNotFoundError }

/-- `envA` with `paddle.load` of the model parameters raising
`FileExistsError` (the only exception the handler catches). -/
def envFEE : Env := { envA with loadModelExc := some PyExc.fileExistsError }

/-- A namespace that additionally defines `checkpoint_dir` (no parser
invocation produces it); it lets the save block of lines 186-234 be
exercised in isolation. -/
def nsAug : NS :=
  nsSet argsA.toNamespace "checkpoint_dir" (PyVal.str "/ckpt")

/-! ## Basic lemmas about the trace monad -/

@[simp]
theorem Res.tr_mk {α : Type} (l : List Event) (o : Except PyExc α) :
    (Res.mk l o).tr = l := rfl

@[simp]
theorem Res.out_mk {α : Type} (l : List Event) (o : Except PyExc α) :
    (Res.mk l o).out = o := rfl

@[simp]
theorem Res.pure_eq {α : Type} (a : α) :
    (pure a : Res α) = ⟨[], Except.ok a⟩ := rfl

@[simp]
theorem Res.mk_ok_bind {α β : Type} (tr : List Event) (a : α)
    (f : α → Res β) :
    (Res.mk tr (Except.ok a) >>= f) = ⟨tr ++ (f a).tr, (f a).out⟩ := rfl

@[simp]
theorem Res.mk_err_bind {α β : Type} (tr : List Event) (e : PyExc)
    (f : α → Res β) :
    (Res.mk tr (Except.error e) >>= f) = ⟨tr, Except.error e⟩ := rfl

theorem Res.bind_of_ok {α β : Type} {x : Res α} {a : α}
    (hx : x.out = Except.ok a) (f : α → Res β) :
    x >>= f = ⟨x.tr ++ (f a).tr, (f a).out⟩ := by
  obtain ⟨tr, out⟩ := x
  cases out with
  | ok b => cases hx; rfl
  | error e => cases hx

theorem Res.bind_of_err {α β : Type} {x : Res α} {e : PyExc}
    (hx : x.out = Except.error e) (f : α → Res β) :
    x >>= f = ⟨x.tr, Except.error e⟩ := by
  obtain ⟨tr, out⟩ := x
  cases out with
  | ok b => cases hx
  | error e2 => cases hx; rfl

theorem Res.mem_tr_bind {α β : Type} {x : Res α} {f : α → Res β} {e : Event}
    (h : e ∈ (x >>= f).tr) :
    e ∈ x.tr ∨ ∃ a, x.out = Except.ok a ∧ e ∈ (f a).tr := by
  obtain ⟨tr, out⟩ := x
  cases out with
  | ok a =>
    rcases List.mem_append.mp h with h1 | h2
    · exact Or.inl h1
    · exact Or.inr ⟨a, rfl, h2⟩
  | error e2 => exact Or.inl h

theorem Res.out_bind {α β : Type} (x : Res α) (f : α → Res β) :
    (x >>= f).out =
      (match x.out with
        | Except.ok a => (f a).out
        | Except.error e => Except.error e) := by
  obtain ⟨tr, out⟩ := x
  cases out <;> rfl

theorem Res.tr_bind {α β : Type} (x : Res α) (f : α → Res β) :
    (x >>= f).tr =
      x.tr ++
        (match x.out with
          | Except.ok a => (f a).tr
          | Except.error _ => []) := by
  obtain ⟨tr, out⟩ := x
  cases out with
  | ok a => rfl
  | error e => simp [Bind.bind]

/-! ## Computation lemmas on parser-produced namespaces -/

theorem stagesPre_parsed (env : Env) (a : Args) :
    stagesPre env a.toNamespace = ⟨preTrace env a, Except.ok ()⟩ := rfl

theorem stagesMid_parsed (env : Env) (a : Args) :
    stagesMid env a.toNamespace = ⟨midTrace a, Except.ok ()⟩ := rfl

theorem stagesMid_resolved (env : Env) (a : Args) (r : String) :
    stagesMid env (nsResolved a r) = ⟨midTrace a, Except.ok ()⟩ := rfl

theorem lookup_save_freq_parsed (a : Args) :
    nsLookup a.toNamespace "save_freq" = Option.none := rfl

theorem lookup_save_freq_resolved (a : Args) (r : String) :
    nsLookup (nsResolved a r) "save_freq" = Option.none := rfl

theorem lookup_ckpt_dir_parsed (a : Args) :
    nsLookup a.toNamespace "checkpoint_dir" = Option.none := rfl

theorem lookup_batch_parsed (a : Args) :
    nsLookup a.toNamespace "batch_size" = some (PyVal.int a.batch_size) := rfl

theorem lookup_workers_parsed (a : Args) :
    nsLookup a.toNamespace "num_workers" = some (PyVal.int a.num_workers) := rfl

theorem lookup_log_freq_parsed (a : Args) :
    nsLookup a.toNamespace "log_freq" = some (PyVal.int a.log_freq) := rfl

theorem lookup_log_freq_resolved (a : Args) (r : String) :
    nsLookup (nsResolved a r) "log_freq" = some (PyVal.int a.log_freq) := rfl

theorem lookup_epochs_parsed (a : Args) :
    nsLookup a.toNamespace "epochs" = some (PyVal.int a.epochs) := rfl

theorem lookup_epochs_resolved (a : Args) (r : String) :
    nsLookup (nsResolved a r) "epochs" = some (PyVal.int a.epochs) := rfl

theorem lookup_ckpt_resolved (a : Args) (r : String) :
    nsLookup (nsResolved a r) "load_checkpoint" = some (PyVal.str r) := rfl

@[simp]
theorem nsResolved_eq (a : Args) (r : String) :
    nsSet a.toNamespace "load_checkpoint" (PyVal.str r) = nsResolved a r := rfl

/-! ## Which events each program segment can emit -/

theorem stagesPre_events (env : Env) (ns : NS) (e : Event)
    (h : e ∈ (stagesPre env ns).tr) : isPreEvent e = true := by
  unfold stagesPre at h
  repeat' rcases Res.mem_tr_bind h with h | ⟨_, _, h⟩
  all_goals simp [getattrR, emit] at h
  all_goals subst h
  all_goals simp [isPreEvent]

theorem stagesMid_events (env : Env) (ns : NS) (e : Event)
    (h : e ∈ (stagesMid env ns).tr) : isMidEvent e = true := by
  unfold stagesMid at h
  repeat' rcases Res.mem_tr_bind h with h | ⟨_, _, h⟩
  all_goals simp [getattrR, emit] at h
  all_goals subst h
  all_goals simp [isMidEvent]

theorem raiseOpt_tr (o : Option PyExc) : (raiseOpt o).tr = [] := by
  cases o <;> rfl

theorem pyMod_tr (a b : Int) : (pyMod a b).tr = [] := by
  unfold pyMod; split <;> rfl

theorem tryLoadBody_events (env : Env) (ns : NS) (e : Event)
    (h : e ∈ (tryLoadBody env ns).tr) : isTryEvent e = true := by
  unfold tryLoadBody at h
  repeat' rcases Res.mem_tr_bind h with h | ⟨_, _, h⟩
  all_goals try split at h
  all_goals repeat' rcases Res.mem_tr_bind h with h | ⟨_, _, h⟩
  all_goals simp [getattrR, emit, raiseOpt_tr] at h
  all_goals subst h
  all_goals simp [isTryEvent]

theorem tryLoadCkpt_events (env : Env) (ns : NS) (e : Event)
    (h : e ∈ (tryLoadCkpt env ns).tr) : isTryEvent e = true := by
  unfold tryLoadCkpt at h
  repeat' split at h
  · rcases List.mem_append.mp h with h2 | h2
    · exact tryLoadBody_events env ns e h2
    · simp at h2; subst h2; rfl
  · exact tryLoadBody_events env ns e h
  · exact tryLoadBody_events env ns e h

theorem isTry_isResume (e : Event) (h : isTryEvent e = true) :
    isResumeEvent e = true := by
  cases e <;> simp [isTryEvent, isResumeEvent] at *
  exact h

theorem parseStartEpoch_events (ns : NS) (e : Event)
    (h : e ∈ (parseStartEpoch ns).tr) : isResumeEvent e = true := by
  unfold parseStartEpoch at h
  repeat' rcases Res.mem_tr_bind h with h | ⟨_, _, h⟩
  all_goals try split at h
  all_goals try split at h
  all_goals repeat' rcases Res.mem_tr_bind h with h | ⟨_, _, h⟩
  all_goals simp [getattrR, emit, raise] at h
  all_goals subst h
  all_goals simp [isResumeEvent]

theorem resumeStage_events (env : Env) (ns : NS) (e : Event)
    (h : e ∈ (resumeStage env ns).tr) : isResumeEvent e = true := by
  unfold resumeStage at h
  rcases Res.mem_tr_bind h with h | ⟨lc, _, h⟩
  · simp [getattrR] at h; subst h; rfl
  · split at h
    · rcases Res.mem_tr_bind h with h | ⟨_, _, h⟩
      · simp [getattrR] at h; subst h; rfl
      · rcases Res.mem_tr_bind h with h | ⟨_, _, h⟩
        · exact isTry_isResume e (tryLoadCkpt_events env _ e h)
        · rcases Res.mem_tr_bind h with h | ⟨_, _, h⟩
          · exact parseStartEpoch_events _ e h
          · simp at h
    · simp at h

theorem batchBody_events (env : Env) (ns : NS) (ep : Int) (i : Nat)
    (e : Event) (h : e ∈ (batchBody env ns ep i).tr) :
    isBatchEvent e = true := by
  unfold batchBody at h
  repeat' rcases Res.mem_tr_bind h with h | ⟨_, _, h⟩
  all_goals try split at h
  all_goals repeat' rcases Res.mem_tr_bind h with h | ⟨_, _, h⟩
  all_goals simp [getattrR, emit, pyMod_tr] at h
  all_goals subst h
  all_goals simp [isBatchEvent]

theorem batchLoop_events (env : Env) (ns : NS) (ep : Int) (l : List Nat)
    (e : Event) (h : e ∈ (batchLoop env ns ep l).tr) :
    isBatchEvent e = true := by
  induction l with
  | nil => simp [batchLoop] at h
  | cons i rest ih =>
    unfold batchLoop at h
    rcases Res.mem_tr_bind h with h | ⟨_, _, h⟩
    · exact batchBody_events env ns ep i e h
    · exact ih h

/-! ## The save-frequency check on namespaces without a save_freq attribute -/

theorem epochTail_noattr (env : Env) (ns : NS) (ep : Int)
    (h : nsLookup ns "save_freq" = Option.none) :
    epochTail env ns ep =
      ⟨[Event.getattr "save_freq"],
        Except.error (PyExc.attributeError "save_freq")⟩ := by
  have hx : (getattrR ns "save_freq").out =
      Except.error (PyExc.attributeError "save_freq") := by
    simp [getattrR, h]
  unfold epochTail
  rw [Res.bind_of_err hx]
  simp [getattrR]

theorem runEpoch_noattr (env : Env) (ns : NS) (ep : Int)
    (h : nsLookup ns "save_freq" = Option.none) :
    ∃ btr ex,
      runEpoch env ns ep = ⟨Event.modelTrain ep :: btr, Except.error ex⟩ ∧
      (∀ e ∈ btr, isBatchEvent e = true) ∧
      ((batchLoop env ns ep (List.range env.stepsPerEpoch)).out =
          Except.ok () → ex = PyExc.attributeError "save_freq") := by
  unfold runEpoch
  rw [Res.bind_of_ok (a := ()) rfl]
  cases hb : (batchLoop env ns ep (List.range env.stepsPerEpoch)).out with
  | ok u =>
    cases u
    rw [Res.bind_of_ok hb]
    rw [epochTail_noattr env ns ep h]
    refine ⟨(batchLoop env ns ep (List.range env.stepsPerEpoch)).tr ++
      [Event.getattr "save_freq"], PyExc.attributeError "save_freq", ?_, ?_, ?_⟩
    · simp [emit]
    · intro e he
      rcases List.mem_append.mp he with h2 | h2
      · exact batchLoop_events env ns ep _ e h2
      · simp at h2; subst h2; rfl
    · intro; rfl
  | error ex =>
    rw [Res.bind_of_err hb]
    refine ⟨(batchLoop env ns ep (List.range env.stepsPerEpoch)).tr, ex, ?_, ?_, ?_⟩
    · simp [emit]
    · intro e he; exact batchLoop_events env ns ep _ e he
    · intro hok; simp at hok

theorem epochLoop_noattr (env : Env) (ns : NS) (ep : Int) (rest : List Int)
    (h : nsLookup ns "save_freq" = Option.none) :
    ∃ btr ex,
      epochLoop env ns (ep :: rest) =
        ⟨Event.modelTrain ep :: btr, Except.error ex⟩ ∧
      (∀ e ∈ btr, isBatchEvent e = true) ∧
      ((batchLoop env ns ep (List.range env.stepsPerEpoch)).out =
          Except.ok () → ex = PyExc.attributeError "save_freq") := by
  obtain ⟨btr, ex, heq, hcl, hok⟩ := runEpoch_noattr env ns ep h
  refine ⟨btr, ex, ?_, hcl, hok⟩
  unfold epochLoop
  rw [Res.bind_of_err (e := ex) (by rw [heq]) _]
  rw [heq]

theorem epochLoop_events (env : Env) (ns : NS) (l : List Int) (e : Event)
    (h : nsLookup ns "save_freq" = Option.none)
    (he : e ∈ (epochLoop env ns l).tr) : isLoopEvent e = true := by
  cases l with
  | nil => simp [epochLoop] at he
  | cons ep rest =>
    obtain ⟨btr, ex, heq, hcl, _⟩ := epochLoop_noattr env ns ep rest h
    rw [heq] at he
    simp at he
    rcases he with he | he
    · subst he; rfl
    · have := hcl e he
      cases e <;> simp [isBatchEvent, isLoopEvent] at *
      exact this

/-! ## The resolved checkpoint path is never empty -/

theorem ite_dot_ne (s : String) : (if s = "" then "." else s) ≠ "" := by
  split
  · simp
  · next h => exact h

theorem normpath_ne_empty (p : String) : normpath p ≠ "" := by
  simp only [normpath]
  split
  · simp
  · exact ite_dot_ne _

theorem resolvedCkptPath_ne_empty (env : Env) (s : String) :
    resolvedCkptPath env s ≠ "" := by
  unfold resolvedCkptPath posixAbspath
  split <;> apply normpath_ne_empty

theorem pyLastChar_some (r : String) (hr : r ≠ "") :
    ∃ c, pyLastChar r = some c := by
  unfold pyLastChar
  have hd : r.data ≠ [] := by
    intro hnil
    apply hr
    cases r with
    | mk l => cases hnil; rfl
  cases hl : r.data.getLast? with
  | none => exact absurd (List.getLast?_eq_none_iff.mp hl) hd
  | some c => exact ⟨c, rfl⟩

/-! ## Parsing the start epoch from the resolved path -/

theorem parseStartEpoch_digit (a : Args) (r : String) (c : Char) (d : Nat)
    (hc : pyLastChar r = some c) (hd : pyIntOfDigit c = some d) :
    parseStartEpoch (nsResolved a r) =
      ⟨[Event.getattr "load_checkpoint", Event.printRestore (d : Int)],
        Except.ok (d : Int)⟩ := by
  unfold parseStartEpoch
  rw [Res.bind_of_ok (a := PyVal.str r)
    (by simp [getattrR, lookup_ckpt_resolved])]
  simp [getattrR, PyVal.toStrV, hc, hd, emit]

theorem parseStartEpoch_nondigit (a : Args) (r : String) (c : Char)
    (hc : pyLastChar r = some c) (hd : pyIntOfDigit c = Option.none) :
    parseStartEpoch (nsResolved a r) =
      ⟨[Event.getattr "load_checkpoint"], Except.ok 0⟩ := by
  unfold parseStartEpoch
  rw [Res.bind_of_ok (a := PyVal.str r)
    (by simp [getattrR, lookup_ckpt_resolved])]
  simp [getattrR, PyVal.toStrV, hc, hd]

theorem parseStartEpoch_resolved (a : Args) (r : String) (hr : r ≠ "") :
    (parseStartEpoch (nsResolved a r)).out = Except.ok (lastDigitVal r) := by
  obtain ⟨c, hc⟩ := pyLastChar_some r hr
  cases hd : pyIntOfDigit c with
  | none =>
    rw [parseStartEpoch_nondigit a r c hc hd]
    simp [lastDigitVal, hc, hd]
  | some d =>
    rw [parseStartEpoch_digit a r c d hc hd]
    simp [lastDigitVal, hc, hd]

/-! ## Outcomes of the checkpoint-load try block -/

theorem tryLoadBody_out_ok (env : Env) (ns : NS) (r : String)
    (hl : nsLookup ns "load_checkpoint" = some (PyVal.str r))
    (hm : env.loadModelExc = Option.none)
    (ho : env.loadOptExc = Option.none) :
    (tryLoadBody env ns).out = Except.ok () := by
  unfold tryLoadBody
  simp [Res.out_bind, getattrR, hl, hm, ho, raiseOpt, emit]
  split <;> simp [Res.out_bind, getattrR, hl, emit]

theorem tryLoadBody_out_model (env : Env) (ns : NS) (r : String)
    (hl : nsLookup ns "load_checkpoint" = some (PyVal.str r))
    (e : PyExc) (hm : env.loadModelExc = some e) :
    (tryLoadBody env ns).out = Except.error e := by
  unfold tryLoadBody
  simp [Res.out_bind, getattrR, hl, hm, raiseOpt, emit, raise]

theorem tryLoadBody_out_opt (env : Env) (ns : NS) (r : String)
    (hl : nsLookup ns "load_checkpoint" = some (PyVal.str r))
    (hm : env.loadModelExc = Option.none)
    (e : PyExc) (ho : env.loadOptExc = some e) :
    (tryLoadBody env ns).out = Except.error e := by
  unfold tryLoadBody
  simp [Res.out_bind, getattrR, hl, hm, ho, raiseOpt, emit, raise]

theorem tryLoadCkpt_out_ok (env : Env) (ns : NS) (r : String)
    (hl : nsLookup ns "load_checkpoint" = some (PyVal.str r))
    (hok : loadOutcomeOk env) :
    (tryLoadCkpt env ns).out = Except.ok () := by
  unfold tryLoadCkpt
  rcases hok with ⟨hm, ho | ho⟩ | hm
  · simp [tryLoadBody_out_ok env ns r hl hm ho]
  · rw [tryLoadBody_out_opt env ns r hl hm PyExc.fileExistsError ho]
    by_cases hr0 : env.localRank = 0 <;> simp [hr0]
  · rw [tryLoadBody_out_model env ns r hl PyExc.fileExistsError hm]
    by_cases hr0 : env.localRank = 0 <;> simp [hr0]

/-! ## The resume stage, case by case -/

theorem lookup_ckpt_parsed (a : Args) (s : String)
    (h : a.load_checkpoint = some s) :
    nsLookup a.toNamespace "load_checkpoint" = some (PyVal.str s) := by
  simp [Args.toNamespace, nsLookup, h]

theorem resumeStage_none (env : Env) (a : Args)
    (h : a.load_checkpoint = Option.none) :
    resumeStage env a.toNamespace =
      ⟨[Event.getattr "load_checkpoint"], Except.ok (a.toNamespace, 0)⟩ := by
  unfold resumeStage
  rw [Res.bind_of_ok (a := PyVal.pynone)
    (by simp [getattrR, Args.toNamespace, nsLookup, h])]
  simp [getattrR, PyVal.truthy]

theorem resumeStage_empty (env : Env) (a : Args)
    (h : a.load_checkpoint = some "") :
    resumeStage env a.toNamespace =
      ⟨[Event.getattr "load_checkpoint"], Except.ok (a.toNamespace, 0)⟩ := by
  unfold resumeStage
  rw [Res.bind_of_ok (a := PyVal.str "") (by simp [getattrR, lookup_ckpt_parsed a "" h])]
  simp [getattrR, PyVal.truthy]

theorem resumeStage_some_tr (env : Env) (a : Args) (s : String)
    (hs : a.load_checkpoint = some s) (hne : s ≠ "")
    (hok : loadOutcomeOk env) :
    resumeStage env a.toNamespace =
      ⟨Event.getattr "load_checkpoint" :: Event.getattr "load_checkpoint" ::
          ((tryLoadCkpt env (nsResolved a (resolvedCkptPath env s))).tr ++
            (parseStartEpoch (nsResolved a (resolvedCkptPath env s))).tr),
        Except.ok (nsResolved a (resolvedCkptPath env s),
          startEpochOf env a)⟩ := by
  have hr : resolvedCkptPath env s ≠ "" := resolvedCkptPath_ne_empty env s
  unfold resumeStage
  rw [Res.bind_of_ok (a := PyVal.str s) (by simp [getattrR, lookup_ckpt_parsed a s hs])]
  rw [if_pos (by simp [PyVal.truthy, hne])]
  rw [Res.bind_of_ok (a := PyVal.str s) (by simp [getattrR, lookup_ckpt_parsed a s hs])]
  simp only [PyVal.toStrV, nsResolved_eq]
  rw [Res.bind_of_ok (a := ())
    (tryLoadCkpt_out_ok env (nsResolved a (resolvedCkptPath env s))
      (resolvedCkptPath env s) (lookup_ckpt_resolved a (resolvedCkptPath env s)) hok)]
  rw [Res.bind_of_ok (a := lastDigitVal (resolvedCkptPath env s))
    (parseStartEpoch_resolved a (resolvedCkptPath env s) hr)]
  simp [getattrR, startEpochOf, hs, hne]

theorem resumeStage_ns_shape (env : Env) (a : Args) (ns2 : NS) (se : Int)
    (h : (resumeStage env a.toNamespace).out = Except.ok (ns2, se)) :
    (ns2 = a.toNamespace ∧ se = 0) ∨
      (∃ s, a.load_checkpoint = some s ∧ s ≠ "" ∧
        ns2 = nsResolved a (resolvedCkptPath env s) ∧
        se = lastDigitVal (resolvedCkptPath env s)) := by
  cases ha : a.load_checkpoint with
  | none =>
    rw [resumeStage_none env a ha] at h
    simp at h
    exact Or.inl ⟨h.1.symm, h.2.symm⟩
  | some s =>
    by_cases hse : s = ""
    · subst hse
      rw [resumeStage_empty env a ha] at h
      simp at h
      exact Or.inl ⟨h.1.symm, h.2.symm⟩
    · right
      refine ⟨s, rfl, hse, ?_⟩
      have hr : resolvedCkptPath env s ≠ "" := resolvedCkptPath_ne_empty env s
      unfold resumeStage at h
      rw [Res.bind_of_ok (a := PyVal.str s)
        (by simp [getattrR, lookup_ckpt_parsed a s ha])] at h
      rw [if_pos (by simp [PyVal.truthy, hse])] at h
      rw [Res.bind_of_ok (a := PyVal.str s)
        (by simp [getattrR, lookup_ckpt_parsed a s ha])] at h
      simp only [PyVal.toStrV, nsResolved_eq] at h
      simp only [Res.out_bind] at h
      cases htl : (tryLoadCkpt env (nsResolved a (resolvedCkptPath env s))).out with
      | error ex => rw [htl] at h; cases h
      | ok u =>
        rw [htl] at h
        rw [parseStartEpoch_resolved a (resolvedCkptPath env s) hr] at h
        simp at h
        exact ⟨h.1.symm, h.2.symm⟩

theorem resumeStage_out_ok (env : Env) (a : Args) (hpre : preLoopOk env a) :
    ∃ ns2,
      (resumeStage env a.toNamespace).out =
        Except.ok (ns2, startEpochOf env a) ∧
      (ns2 = a.toNamespace ∨ ∃ rp, ns2 = nsResolved a rp) := by
  cases ha : a.load_checkpoint with
  | none =>
    refine ⟨a.toNamespace, ?_, Or.inl rfl⟩
    rw [resumeStage_none env a ha]
    simp [startEpochOf, ha]
  | some s =>
    by_cases hse : s = ""
    · subst hse
      refine ⟨a.toNamespace, ?_, Or.inl rfl⟩
      rw [resumeStage_empty env a ha]
      simp [startEpochOf, ha]
    · refine ⟨nsResolved a (resolvedCkptPath env s), ?_,
        Or.inr ⟨resolvedCkptPath env s, rfl⟩⟩
      rw [resumeStage_some_tr env a s ha hse (hpre s ha hse)]

/-! ## The epoch range of the loop -/

theorem pyRange_cons (x y : Int) (h : x < y) :
    ∃ rest, pyRange x y = x :: rest := by
  refine ⟨((List.range (y - x - 1).toNat).map Nat.succ).map
    (fun i => x + (i : Int)), ?_⟩
  unfold pyRange
  have hk : (y - x).toNat = (y - x - 1).toNat + 1 := by omega
  rw [hk, List.range_succ_eq_map]
  simp

theorem pyRange_nil (x y : Int) (h : y ≤ x) : pyRange x y = [] := by
  unfold pyRange
  have hk : (y - x).toNat = 0 := by omega
  rw [hk]
  rfl

/-! ## The batch loop completes when log_freq is nonzero -/

theorem batchBody_ok (env : Env) (ns : NS) (ep : Int) (i : Nat) (v : PyVal)
    (hL : nsLookup ns "log_freq" = some (PyVal.int 0) → False)
    (hLs : ∃ L, nsLookup ns "log_freq" = some (PyVal.int L))
    (hE : nsLookup ns "epochs" = some v) :
    (batchBody env ns ep i).out = Except.ok () := by
  obtain ⟨L, hLv⟩ := hLs
  have hL0 : L ≠ 0 := by
    intro h0
    exact hL (by rw [hLv, h0])
  unfold batchBody
  simp [Res.out_bind, getattrR, hLv, hE, emit, pyMod, PyVal.toInt, hL0]
  split <;> simp [Res.out_bind, getattrR, hLv, hE, emit]

theorem batchLoop_ok (env : Env) (ns : NS) (ep : Int) (l : List Nat)
    (v : PyVal)
    (hL : nsLookup ns "log_freq" = some (PyVal.int 0) → False)
    (hLs : ∃ L, nsLookup ns "log_freq" = some (PyVal.int L))
    (hE : nsLookup ns "epochs" = some v) :
    (batchLoop env ns ep l).out = Except.ok () := by
  induction l with
  | nil => rfl
  | cons i rest ih =>
    unfold batchLoop
    rw [Res.bind_of_ok (batchBody_ok env ns ep i v hL hLs hE)]
    exact ih

/-! ## Decomposition of a whole run -/

theorem runMain_decomp (env : Env) (a : Args) :
    (∃ ex, (resumeStage env a.toNamespace).out = Except.error ex ∧
      runMain env a.toNamespace =
        ⟨preTrace env a ++ (resumeStage env a.toNamespace).tr,
          Except.error ex⟩) ∨
    (∃ ns2 se,
      (resumeStage env a.toNamespace).out = Except.ok (ns2, se) ∧
      (ns2 = a.toNamespace ∨ ∃ rp, ns2 = nsResolved a rp) ∧
      runMain env a.toNamespace =
        ⟨preTrace env a ++ (resumeStage env a.toNamespace).tr ++ midTrace a ++
            Event.getattr "epochs" ::
              (epochLoop env ns2 (pyRange (se + 1) (a.epochs + 1))).tr,
          (epochLoop env ns2 (pyRange (se + 1) (a.epochs + 1))).out⟩) := by
  unfold runMain
  rw [stagesPre_parsed env a, Res.mk_ok_bind]
  cases hro : (resumeStage env a.toNamespace).out with
  | error ex =>
    left
    refine ⟨ex, rfl, ?_⟩
    rw [Res.bind_of_err hro]
  | ok p =>
    right
    obtain ⟨ns2, se⟩ := p
    have hshape :
        (ns2 = a.toNamespace ∧ se = 0) ∨
          (∃ s, a.load_checkpoint = some s ∧ s ≠ "" ∧
            ns2 = nsResolved a (resolvedCkptPath env s) ∧
            se = lastDigitVal (resolvedCkptPath env s)) :=
      resumeStage_ns_shape env a ns2 se hro
    have hshape2 : ns2 = a.toNamespace ∨ ∃ rp, ns2 = nsResolved a rp := by
      rcases hshape with ⟨h1, _⟩ | ⟨s, _, _, h1, _⟩
      · exact Or.inl h1
      · exact Or.inr ⟨resolvedCkptPath env s, h1⟩
    refine ⟨ns2, se, rfl, hshape2, ?_⟩
    rw [Res.bind_of_ok hro]
    have hmid : stagesMid env ns2 = ⟨midTrace a, Except.ok ()⟩ := by
      rcases hshape2 with h1 | ⟨rp, h1⟩
      · rw [h1]; exact stagesMid_parsed env a
      · rw [h1]; exact stagesMid_resolved env a rp
    rw [hmid, Res.mk_ok_bind]
    have hep : getattrR ns2 "epochs" =
        ⟨[Event.getattr "epochs"], Except.ok (PyVal.int a.epochs)⟩ := by
      rcases hshape2 with h1 | ⟨rp, h1⟩ <;>
        simp [h1, getattrR, lookup_epochs_parsed, lookup_epochs_resolved]
    rw [hep, Res.mk_ok_bind]
    simp [PyVal.toInt]

/-! ## Classifier bridges -/

theorem isPre_not_save (e : Event) (h : isPreEvent e = true) :
    isSaveEvent e = false := by
  cases e <;> simp_all [isPreEvent, isSaveEvent]

theorem isPre_not_eval (e : Event) (h : isPreEvent e = true) :
    isEvalEvent e = false := by
  cases e <;> simp_all [isPreEvent, isEvalEvent]

theorem isResume_not_save (e : Event) (h : isResumeEvent e = true) :
    isSaveEvent e = false := by
  cases e <;> simp_all [isResumeEvent, isSaveEvent]

theorem isResume_not_eval (e : Event) (h : isResumeEvent e = true) :
    isEvalEvent e = false := by
  cases e <;> simp_all [isResumeEvent, isEvalEvent]

theorem isResume_not_coord (e : Event) (h : isResumeEvent e = true) :
    isCoordEvent e = false := by
  cases e <;> simp_all [isResumeEvent, isCoordEvent]

theorem isResume_stage7 (e : Event) (h : isResumeEvent e = true) :
    stageOf e = 7 := by
  cases e <;> simp_all [isResumeEvent, stageOf]

theorem isMid_not_save (e : Event) (h : isMidEvent e = true) :
    isSaveEvent e = false := by
  cases e <;> simp_all [isMidEvent, isSaveEvent]

theorem isMid_not_eval (e : Event) (h : isMidEvent e = true) :
    isEvalEvent e = false := by
  cases e <;> simp_all [isMidEvent, isEvalEvent]

theorem isMid_not_coord (e : Event) (h : isMidEvent e = true) :
    isCoordEvent e = false := by
  cases e <;> simp_all [isMidEvent, isCoordEvent]

theorem isLoop_not_save (e : Event) (h : isLoopEvent e = true) :
    isSaveEvent e = false := by
  cases e <;> simp_all [isLoopEvent, isSaveEvent]

theorem isLoop_not_eval (e : Event) (h : isLoopEvent e = true) :
    isEvalEvent e = false := by
  cases e <;> simp_all [isLoopEvent, isEvalEvent]

theorem isLoop_not_coord (e : Event) (h : isLoopEvent e = true) :
    isCoordEvent e = false := by
  cases e <;> simp_all [isLoopEvent, isCoordEvent]

theorem isLoop_stage9 (e : Event) (h : isLoopEvent e = true) :
    stageOf e = 9 := by
  cases e <;> simp_all [isLoopEvent, stageOf]
  all_goals (rcases h with h | h | h <;> simp [h])

theorem isBatch_isLoop (e : Event) (h : isBatchEvent e = true) :
    isLoopEvent e = true := by
  cases e <;> simp_all [isBatchEvent, isLoopEvent]

theorem isPreEvent_getattr (n : String) (h : isPreEvent (Event.getattr n) = true) :
    n = "device" ∨ n = "data_dir" ∨ n = "learning_rate" := by
  simpa [isPreEvent] using h

theorem isMidEvent_getattr (n : String) (h : isMidEvent (Event.getattr n) = true) :
    n = "batch_size" ∨ n = "num_workers" ∨ n = "epochs" := by
  simpa [isMidEvent] using h

theorem isLoopEvent_getattr (n : String) (h : isLoopEvent (Event.getattr n) = true) :
    n = "log_freq" ∨ n = "epochs" ∨ n = "save_freq" := by
  simpa [isLoopEvent] using h

theorem isResumeEvent_getattr (n : String)
    (h : isResumeEvent (Event.getattr n) = true) : n = "load_checkpoint" := by
  simpa [isResumeEvent] using h

theorem sorted_all_eq (l : List Nat) (c : Nat) (h : ∀ x ∈ l, x = c) :
    List.Sorted (fun x y => x ≤ y) l := by
  induction l with
  | nil => exact List.sorted_nil
  | cons x xs ih =>
    refine List.sorted_cons.mpr ⟨?_, ih (fun y hy => h y (by simp [hy]))⟩
    intro b hb
    rw [h x (by simp), h b (by simp [hb])]

theorem devLoop_out (n : Nat) : (devLoop n).out = Except.ok () := by
  induction n with
  | zero => rfl
  | succ k ih =>
    unfold devLoop
    rw [Res.bind_of_ok ih]
    rfl

theorem filter_nil_of_all (p : Event → Bool) (l : List Event)
    (h : ∀ e ∈ l, p e = false) : List.filter p l = [] := by
  induction l with
  | nil => rfl
  | cons x xs ih =>
    rw [List.filter_cons_of_neg (by simp [h x (by simp)])]
    exact ih (fun e he => h e (by simp [he]))

theorem preTrace_mem_events (env : Env) (a : Args) (e : Event)
    (h : e ∈ preTrace env a) : isPreEvent e = true := by
  apply stagesPre_events env a.toNamespace e
  rw [stagesPre_parsed env a]
  exact h

theorem midTrace_mem_events (env : Env) (a : Args) (e : Event)
    (h : e ∈ midTrace a) : isMidEvent e = true := by
  apply stagesMid_events env a.toNamespace e
  rw [stagesMid_parsed env a]
  exact h

/-! ## A run that survives the pre-loop stages and enters the loop -/

theorem runMain_run (env : Env) (a : Args) (hpre : preLoopOk env a)
    (hep : startEpochOf env a + 1 ≤ a.epochs) :
    ∃ ns2 btr ex,
      (ns2 = a.toNamespace ∨ ∃ rp, ns2 = nsResolved a rp) ∧
      (resumeStage env a.toNamespace).out =
        Except.ok (ns2, startEpochOf env a) ∧
      runMain env a.toNamespace =
        ⟨preTrace env a ++ (resumeStage env a.toNamespace).tr ++ midTrace a ++
            Event.getattr "epochs" ::
              Event.modelTrain (startEpochOf env a + 1) :: btr,
          Except.error ex⟩ ∧
      (∀ e ∈ btr, isBatchEvent e = true) ∧
      (env.stepsPerEpoch = 0 ∨ a.log_freq ≠ 0 →
        ex = PyExc.attributeError "save_freq") := by
  obtain ⟨ns2, hro, hshape⟩ := resumeStage_out_ok env a hpre
  rcases runMain_decomp env a with ⟨ex, hre, _⟩ | ⟨ns2', se', hro', hshape', heq⟩
  · rw [hro] at hre; cases hre
  · rw [hro] at hro'
    have hns : ns2 = ns2' ∧ startEpochOf env a = se' := by
      have := hro'
      simp at this
      exact this
    obtain ⟨hns2, hse⟩ := hns
    subst hns2
    subst hse
    have hsf : nsLookup ns2 "save_freq" = Option.none := by
      rcases hshape with h1 | ⟨rp, h1⟩ <;> subst h1
      · exact lookup_save_freq_parsed a
      · exact lookup_save_freq_resolved a rp
    have hlfv : nsLookup ns2 "log_freq" = some (PyVal.int a.log_freq) := by
      rcases hshape with h1 | ⟨rp, h1⟩ <;> subst h1
      · exact lookup_log_freq_parsed a
      · exact lookup_log_freq_resolved a rp
    have hepv : nsLookup ns2 "epochs" = some (PyVal.int a.epochs) := by
      rcases hshape with h1 | ⟨rp, h1⟩ <;> subst h1
      · exact lookup_epochs_parsed a
      · exact lookup_epochs_resolved a rp
    obtain ⟨rest, hpr⟩ :=
      pyRange_cons (startEpochOf env a + 1) (a.epochs + 1) (by omega)
    rw [hpr] at heq
    obtain ⟨btr, ex2, hloop, hbcl, hbex⟩ :=
      epochLoop_noattr env ns2 (startEpochOf env a + 1) rest hsf
    rw [hloop] at heq
    refine ⟨ns2, btr, ex2, hshape, hro, ?_, hbcl, ?_⟩
    · rw [heq]
    · intro hlf
      rcases hlf with hsteps | hlfnz
      · apply hbex
        rw [hsteps]
        rfl
      · apply hbex
        apply batchLoop_ok env ns2 (startEpochOf env a + 1) _ (PyVal.int a.epochs)
        · intro h0
          rw [hlfv] at h0
          simp at h0
          exact hlfnz h0
        · exact ⟨a.log_freq, hlfv⟩
        · exact hepv

/-- C1: the parser-produced argument namespace defines neither a
`save_freq` nor a `checkpoint_dir` attribute, so every run that survives
the pre-loop stages, enters the training loop, and completes the batch
loop of its first epoch stops at `epoch % args.save_freq` (line 180) with
an `AttributeError` for `save_freq`, and no checkpoint file is ever
written. -/
theorem claim_C1_save_freq_attribute_error (env : Env) (a : Args)
    (hpre : preLoopOk env a)
    (hep : startEpochOf env a + 1 ≤ a.epochs)
    (hlf : env.stepsPerEpoch = 0 ∨ a.log_freq ≠ 0) :
    nsLookup a.toNamespace "save_freq" = Option.none ∧
    nsLookup a.toNamespace "checkpoint_dir" = Option.none ∧
    (runMain env a.toNamespace).out =
      Except.error (PyExc.attributeError "save_freq") ∧
    List.filter isSaveEvent (runMain env a.toNamespace).tr = [] := by
  obtain ⟨ns2, btr, ex, hshape, hro, heq, hbcl, hbex⟩ :=
    runMain_run env a hpre hep
  have hexe := hbex hlf
  subst hexe
  refine ⟨lookup_save_freq_parsed a, lookup_ckpt_dir_parsed a, ?_, ?_⟩
  · rw [heq]
  · rw [heq]
    apply filter_nil_of_all
    intro e he
    simp only [Res.tr_mk, List.append_assoc, List.mem_append,
      List.mem_cons] at he
    rcases he with he | he | he | he | he | he
    · exact isPre_not_save e (preTrace_mem_events env a e he)
    · exact isResume_not_save e (resumeStage_events env _ e he)
    · exact isMid_not_save e (midTrace_mem_events env a e he)
    · subst he; rfl
    · subst he; rfl
    · exact isLoop_not_save e (isBatch_isLoop e (hbcl e he))

/-- Witness for C1 at the parser defaults in a single-process environment
with one batch per epoch. -/
theorem claim_C1_witness :
    nsLookup argsA.toNamespace "save_freq" = Option.none ∧
    nsLookup argsA.toNamespace "checkpoint_dir" = Option.none ∧
    (runMain envA argsA.toNamespace).out =
      Except.error (PyExc.attributeError "save_freq") ∧
    List.filter isSaveEvent (runMain envA argsA.toNamespace).tr = [] :=
  claim_C1_save_freq_attribute_error envA argsA
    (fun s hs _ => Option.noConfusion hs) (by decide) (Or.inr (by decide))

/-- C2: when `--load-checkpoint` names a directory whose parameter file
does not exist, `paddle.load` raises `FileNotFoundError`; the handler at
line 99 catches only `FileExistsError`, so the exception escapes, the
training loop never runs, and the train-from-scratch fallback message is
never printed.  Only a `FileExistsError` (which a failing load does not
raise) reaches the fallback path, after which training proceeds. -/
theorem claim_C2_uncaught_load_failure :
    (runMain envFNF argsB.toNamespace).out =
      Except.error PyExc.fileNotFoundError ∧
    List.filter isTrainEvent (runMain envFNF argsB.toNamespace).tr = [] ∧
    Event.printScratch ∉ (runMain envFNF argsB.toNamespace).tr ∧
    Event.printScratch ∈ (runMain envFEE argsB.toNamespace).tr ∧
    Event.modelTrain 6 ∈ (runMain envFEE argsB.toNamespace).tr := by decide

/-- C4: on a default invocation the run stops with an `AttributeError`
for `save_freq` and writes no checkpoint file at all; the save block of
lines 224-231, executed in isolation on a namespace that does define
`checkpoint_dir`, writes exactly `epoch_{n}/model.pdparams` and
`epoch_{n}/model.pdopt` under that directory. -/
theorem claim_C4_no_checkpoint_ever_written :
    (runMain envA argsA.toNamespace).out =
      Except.error (PyExc.attributeError "save_freq") ∧
    List.filter isSaveEvent (runMain envA argsA.toNamespace).tr = [] ∧
    (saveBlock envA nsAug 3).out = Except.ok () ∧
    Event.save "/ckpt/epoch_3/model.pdparams" ∈ (saveBlock envA nsAug 3).tr ∧
    Event.save "/ckpt/epoch_3/model.pdopt" ∈ (saveBlock envA nsAug 3).tr ∧
    List.filter isSaveEvent (saveBlock envA nsAug 3).tr =
      [Event.save "/ckpt/epoch_3/model.pdparams",
       Event.save "/ckpt/epoch_3/model.pdopt"] := by decide

/-- C6: on a default invocation the dev evaluation never runs (the run
stops at the `save_freq` lookup before reaching it); in the save block
executed in isolation the evaluation events all precede the two
checkpoint writes. -/
theorem claim_C6_evaluation_never_reached :
    (runMain envA argsA.toNamespace).out =
      Except.error (PyExc.attributeError "save_freq") ∧
    List.filter isEvalEvent (runMain envA argsA.toNamespace).tr = [] ∧
    List.filter (fun e => isEvalEvent e || isSaveEvent e)
        (saveBlock envA nsAug 3).tr =
      [Event.buildDevSampler 16 false, Event.buildDevLoader 0,
       Event.modelEval, Event.printEvaluate, Event.evalStep 0,
       Event.evalReport, Event.save "/ckpt/epoch_3/model.pdparams",
       Event.save "/ckpt/epoch_3/model.pdopt"] := by decide

theorem saveBlock_ckptdir (env : Env) (a : Args) (ep : Int)
    (hr : env.localRank = 0) :
    (saveBlock env a.toNamespace ep).out =
      Except.error (PyExc.attributeError "checkpoint_dir") := by
  unfold saveBlock
  rw [if_neg (by simp [hr])]
  simp [Res.out_bind, getattrR, lookup_batch_parsed, lookup_workers_parsed,
    lookup_ckpt_dir_parsed, emit, devLoop_out]

theorem lookup_save_freq_shape (_env : Env) (a : Args) (ns2 : NS)
    (hshape : ns2 = a.toNamespace ∨ ∃ rp, ns2 = nsResolved a rp) :
    nsLookup ns2 "save_freq" = Option.none := by
  rcases hshape with h1 | ⟨rp, h1⟩ <;> subst h1
  · exact lookup_save_freq_parsed a
  · exact lookup_save_freq_resolved a rp

theorem runMain_reads (env : Env) (a : Args) (n : String)
    (h : Event.getattr n ∈ (runMain env a.toNamespace).tr) :
    n ∈ namespaceAttrs ∨ n = "save_freq" := by
  have hattrs : namespaceAttrs =
      ["device", "data_dir", "learning_rate", "load_checkpoint",
       "batch_size", "num_workers", "epochs", "log_freq"] := by decide
  rcases runMain_decomp env a with ⟨ex, _, heq⟩ | ⟨ns2, se, _, hshape, heq⟩
  · rw [heq] at h
    simp only [Res.tr_mk, List.mem_append] at h
    rcases h with h | h
    · rcases isPreEvent_getattr n (preTrace_mem_events env a _ h) with
        h1 | h1 | h1 <;> (subst h1; rw [hattrs]; left; decide)
    · have h2 := isResumeEvent_getattr n (resumeStage_events env _ _ h)
      subst h2; rw [hattrs]; left; decide
  · rw [heq] at h
    have hsf := lookup_save_freq_shape env a ns2 hshape
    simp only [Res.tr_mk, List.append_assoc, List.mem_append,
      List.mem_cons] at h
    rcases h with h | h | h | h | h
    · rcases isPreEvent_getattr n (preTrace_mem_events env a _ h) with
        h1 | h1 | h1 <;> (subst h1; rw [hattrs]; left; decide)
    · have h2 := isResumeEvent_getattr n (resumeStage_events env _ _ h)
      subst h2; rw [hattrs]; left; decide
    · rcases isMidEvent_getattr n (midTrace_mem_events env a _ h) with
        h1 | h1 | h1 <;> (subst h1; rw [hattrs]; left; decide)
    · simp at h; subst h; rw [hattrs]; left; decide
    · rcases isLoopEvent_getattr n (epochLoop_events env ns2 _ _ hsf h) with
        h1 | h1 | h1
      · subst h1; rw [hattrs]; left; decide
      · subst h1; rw [hattrs]; left; decide
      · subst h1; right; rfl

/-- Counterexample to C3 as stated: the run reads `args.save_freq`, an
attribute no parser flag supplies. -/
theorem claim_C3_counterexample :
    Event.getattr "save_freq" ∈ (runMain envA argsA.toNamespace).tr ∧
    nsLookup argsA.toNamespace "save_freq" = Option.none ∧
    "save_freq" ∉ namespaceAttrs := by decide

/-- Counterexample to C5 as stated: a run enters the training loop yet
performs no evaluation and no checkpoint save; it stops with an
`AttributeError` instead. -/
theorem claim_C5_counterexample :
    Event.modelTrain 1 ∈ (runMain envA argsA.toNamespace).tr ∧
    Event.trainStep 1 0 ∈ (runMain envA argsA.toNamespace).tr ∧
    List.filter isEvalEvent (runMain envA argsA.toNamespace).tr = [] ∧
    List.filter isSaveEvent (runMain envA argsA.toNamespace).tr = [] ∧
    (runMain envA argsA.toNamespace).out =
      Except.error (PyExc.attributeError "save_freq") := by decide

/-- Counterexample to C7 as stated: for the flag value `/w/epoch_5/` the
raw path's last character is `/`, not a digit, yet the code sets
`start_epoch` to 5 (the last character of the absolutised path) and the
loop starts at epoch 6, not 1. -/
theorem claim_C7_counterexample :
    argsB.load_checkpoint = some "/w/epoch_5/" ∧
    pyLastChar "/w/epoch_5/" = some '/' ∧
    pyIntOfDigit '/' = Option.none ∧
    Event.printRestore 5 ∈ (runMain envA argsB.toNamespace).tr ∧
    Event.modelTrain 6 ∈ (runMain envA argsB.toNamespace).tr ∧
    Event.modelTrain 1 ∉ (runMain envA argsB.toNamespace).tr := by decide

/-- C3 amended: the parser defines exactly the eight documented flags, and
every configuration value any run reads from the parsed arguments is
supplied by one of them except `args.save_freq` — read at the
save-frequency check and raising `AttributeError` — while the save block
that this error makes unreachable additionally reads the likewise
undefined `args.checkpoint_dir`. -/
theorem claim_C3_amended :
    namespaceAttrs =
      ["device", "data_dir", "learning_rate", "load_checkpoint",
       "batch_size", "num_workers", "epochs", "log_freq"] ∧
    "save_freq" ∉ namespaceAttrs ∧
    "checkpoint_dir" ∉ namespaceAttrs ∧
    (∀ (env : Env) (a : Args) (n : String),
      Event.getattr n ∈ (runMain env a.toNamespace).tr →
      n ∈ namespaceAttrs ∨ n = "save_freq") ∧
    (∀ (env : Env) (a : Args) (ep : Int), env.localRank = 0 →
      (saveBlock env a.toNamespace ep).out =
        Except.error (PyExc.attributeError "checkpoint_dir")) :=
  ⟨by decide, by decide, by decide, runMain_reads, saveBlock_ckptdir⟩

/-- Witness for the amended C3 at a concrete run. -/
theorem claim_C3_amended_witness :
    ("device" ∈ namespaceAttrs ∨ "device" = "save_freq") ∧
    (saveBlock envA argsA.toNamespace 1).out =
      Except.error (PyExc.attributeError "checkpoint_dir") :=
  ⟨claim_C3_amended.2.2.2.1 envA argsA "device" (by decide),
   claim_C3_amended.2.2.2.2 envA argsA 1 (by decide)⟩

/-- C9: in every run through the parser, the only inter-process
coordination calls the script makes are the framework primitives
`init_parallel_env`, `get_world_size` and `get_rank`; the two `barrier`
call sites exist inside the save block only, which no run reaches, so no
other coordination (and no custom locking or scheduling) occurs. -/
theorem claim_C9_coordination_is_framework_only (env : Env) (a : Args) :
    List.filter isCoordEvent (runMain env a.toNamespace).tr =
      [Event.initParallelEnv, Event.getWorldSize, Event.getRank] := by
  have hpre : List.filter isCoordEvent (preTrace env a) =
      [Event.initParallelEnv, Event.getWorldSize, Event.getRank] := by
    simp [preTrace, isCoordEvent]
  rcases runMain_decomp env a with ⟨ex, _, heq⟩ | ⟨ns2, se, _, hshape, heq⟩
  · rw [heq]
    simp only [Res.tr_mk, List.filter_append]
    rw [hpre, filter_nil_of_all _ _
      (fun e he => isResume_not_coord e (resumeStage_events env _ e he))]
    simp
  · rw [heq]
    have hsf := lookup_save_freq_shape env a ns2 hshape
    simp only [Res.tr_mk, List.append_assoc, List.filter_append]
    rw [hpre]
    rw [filter_nil_of_all _ _
      (fun e he => isResume_not_coord e (resumeStage_events env _ e he))]
    rw [filter_nil_of_all _ _
      (fun e he => isMid_not_coord e (midTrace_mem_events env a e he))]
    rw [filter_nil_of_all _ _ (fun e he => by
      rcases List.mem_cons.mp he with he2 | he2
      · subst he2; rfl
      · exact isLoop_not_coord e
          (epochLoop_events env ns2 _ e hsf he2))]
    simp

/-- Witness for C9 at a concrete run. -/
theorem claim_C9_witness :
    List.filter isCoordEvent (runMain envA argsA.toNamespace).tr =
      [Event.initParallelEnv, Event.getWorldSize, Event.getRank] :=
  claim_C9_coordination_is_framework_only envA argsA

/-! ## Where the restore message and the epoch markers can appear -/

theorem resumeStage_restore_mem (env : Env) (a : Args) (s : String)
    (c : Char) (d : Nat)
    (hs : a.load_checkpoint = some s) (hne : s ≠ "")
    (hok : loadOutcomeOk env)
    (hc : pyLastChar (resolvedCkptPath env s) = some c)
    (hd : pyIntOfDigit c = some d) :
    Event.printRestore (d : Int) ∈ (resumeStage env a.toNamespace).tr := by
  rw [resumeStage_some_tr env a s hs hne hok]
  simp [parseStartEpoch_digit a (resolvedCkptPath env s) c d hc hd]

theorem resumeStage_no_restore (env : Env) (a : Args) (s : String)
    (c : Char)
    (hs : a.load_checkpoint = some s) (hne : s ≠ "")
    (hok : loadOutcomeOk env)
    (hc : pyLastChar (resolvedCkptPath env s) = some c)
    (hd : pyIntOfDigit c = Option.none) (d : Int) :
    Event.printRestore d ∉ (resumeStage env a.toNamespace).tr := by
  rw [resumeStage_some_tr env a s hs hne hok]
  intro hmem
  simp [parseStartEpoch_nondigit a (resolvedCkptPath env s) c hc hd]
    at hmem
  have h2 := tryLoadCkpt_events env _ _ hmem
  simp [isTryEvent] at h2

theorem runMain_resume_mem (env : Env) (a : Args) (e : Event)
    (he : e ∈ (resumeStage env a.toNamespace).tr) :
    e ∈ (runMain env a.toNamespace).tr := by
  rcases runMain_decomp env a with ⟨ex, _, heq⟩ | ⟨ns2, se, _, _, heq⟩ <;>
    rw [heq] <;> simp [he]

theorem runMain_modelTrain (env : Env) (a : Args) (ns2 : NS)
    (hro : (resumeStage env a.toNamespace).out =
      Except.ok (ns2, startEpochOf env a))
    (hshape : ns2 = a.toNamespace ∨ ∃ rp, ns2 = nsResolved a rp) :
    (startEpochOf env a + 1 ≤ a.epochs →
      Event.modelTrain (startEpochOf env a + 1) ∈
        (runMain env a.toNamespace).tr) ∧
    (∀ ep : Int, Event.modelTrain ep ∈ (runMain env a.toNamespace).tr →
      ep = startEpochOf env a + 1) := by
  rcases runMain_decomp env a with ⟨ex, hre, _⟩ | ⟨ns2', se', hro', _, heq⟩
  · rw [hro] at hre; cases hre
  · rw [hro] at hro'
    have h2 : ns2 = ns2' ∧ startEpochOf env a = se' := by simpa using hro'
    obtain ⟨h2a, h2b⟩ := h2
    subst h2a
    subst h2b
    have hsf := lookup_save_freq_shape env a ns2 hshape
    constructor
    · intro hle
      obtain ⟨rest, hpr⟩ :=
        pyRange_cons (startEpochOf env a + 1) (a.epochs + 1) (by omega)
      obtain ⟨btr, ex2, hloop, _, _⟩ :=
        epochLoop_noattr env ns2 (startEpochOf env a + 1) rest hsf
      rw [heq, hpr, hloop]
      simp
    · intro ep hmem
      rw [heq] at hmem
      simp only [Res.tr_mk, List.append_assoc, List.mem_append,
        List.mem_cons] at hmem
      rcases hmem with hmem | hmem | hmem | hmem | hmem
      · have h3 := preTrace_mem_events env a _ hmem
        simp [isPreEvent] at h3
      · have h3 := resumeStage_events env _ _ hmem
        simp [isResumeEvent] at h3
      · have h3 := midTrace_mem_events env a _ hmem
        simp [isMidEvent] at h3
      · cases hmem
      · by_cases hle : startEpochOf env a + 1 ≤ a.epochs
        · obtain ⟨rest, hpr⟩ :=
            pyRange_cons (startEpochOf env a + 1) (a.epochs + 1) (by omega)
          obtain ⟨btr, ex2, hloop, hbcl, _⟩ :=
            epochLoop_noattr env ns2 (startEpochOf env a + 1) rest hsf
          rw [hpr, hloop] at hmem
          simp only [Res.tr_mk, List.mem_cons] at hmem
          rcases hmem with hmem | hmem
          · injection hmem
          · have h3 := hbcl _ hmem
            simp [isBatchEvent] at h3
        · rw [pyRange_nil (startEpochOf env a + 1) (a.epochs + 1)
            (by omega)] at hmem
          simp [epochLoop] at hmem

theorem runMain_restore_mem_resume (env : Env) (a : Args) (d : Int)
    (hm : Event.printRestore d ∈ (runMain env a.toNamespace).tr) :
    Event.printRestore d ∈ (resumeStage env a.toNamespace).tr := by
  rcases runMain_decomp env a with ⟨ex, _, heq⟩ | ⟨ns2, se, _, hshape, heq⟩
  · rw [heq] at hm
    simp only [Res.tr_mk, List.mem_append] at hm
    rcases hm with hm | hm
    · have h3 := preTrace_mem_events env a _ hm
      simp [isPreEvent] at h3
    · exact hm
  · rw [heq] at hm
    have hsf := lookup_save_freq_shape env a ns2 hshape
    simp only [Res.tr_mk, List.append_assoc, List.mem_append,
      List.mem_cons] at hm
    rcases hm with hm | hm | hm | hm | hm
    · have h3 := preTrace_mem_events env a _ hm
      simp [isPreEvent] at h3
    · exact hm
    · have h3 := midTrace_mem_events env a _ hm
      simp [isMidEvent] at h3
    · cases hm
    · have h3 := epochLoop_events env ns2 _ _ hsf hm
      simp [isLoopEvent] at h3

/-- C7 amended: the resume epoch is derived from the final character of
the expanded absolute checkpoint path — lines 85-86 rewrite
`args.load_checkpoint` through `expanduser`/`abspath` before line 104
reads its last character — not from the raw flag value.  If that final
character is a decimal digit d, `start_epoch` becomes d and the training
loop begins at epoch d+1; otherwise the `ValueError` is swallowed,
`start_epoch` stays 0 and the loop begins at epoch 1. -/
theorem claim_C7_amended (env : Env) (a : Args) (s : String) (c : Char)
    (hs : a.load_checkpoint = some s) (hne : s ≠ "")
    (hok : loadOutcomeOk env)
    (hc : pyLastChar (resolvedCkptPath env s) = some c) :
    (∀ d : Nat, pyIntOfDigit c = some d →
      startEpochOf env a = (d : Int) ∧
      Event.printRestore (d : Int) ∈ (runMain env a.toNamespace).tr ∧
      ((d : Int) + 1 ≤ a.epochs →
        Event.modelTrain ((d : Int) + 1) ∈ (runMain env a.toNamespace).tr) ∧
      (∀ ep : Int, Event.modelTrain ep ∈ (runMain env a.toNamespace).tr →
        ep = (d : Int) + 1)) ∧
    (pyIntOfDigit c = Option.none →
      startEpochOf env a = 0 ∧
      (∀ d : Int, Event.printRestore d ∉ (runMain env a.toNamespace).tr) ∧
      (1 ≤ a.epochs →
        Event.modelTrain 1 ∈ (runMain env a.toNamespace).tr) ∧
      (∀ ep : Int, Event.modelTrain ep ∈ (runMain env a.toNamespace).tr →
        ep = 1)) := by
  have hrt := resumeStage_some_tr env a s hs hne hok
  have hro : (resumeStage env a.toNamespace).out =
      Except.ok (nsResolved a (resolvedCkptPath env s),
        startEpochOf env a) := by rw [hrt]
  have hshape : nsResolved a (resolvedCkptPath env s) = a.toNamespace ∨
      ∃ rp, nsResolved a (resolvedCkptPath env s) = nsResolved a rp :=
    Or.inr ⟨resolvedCkptPath env s, rfl⟩
  have hmt := runMain_modelTrain env a _ hro hshape
  have hsd : startEpochOf env a = lastDigitVal (resolvedCkptPath env s) := by
    simp [startEpochOf, hs, hne]
  constructor
  · intro d hd
    have hval : startEpochOf env a = (d : Int) := by
      rw [hsd]; simp [lastDigitVal, hc, hd]
    rw [hval] at hmt
    refine ⟨hval, ?_, hmt.1, hmt.2⟩
    exact runMain_resume_mem env a _
      (resumeStage_restore_mem env a s c d hs hne hok hc hd)
  · intro hd
    have hval : startEpochOf env a = 0 := by
      rw [hsd]; simp [lastDigitVal, hc, hd]
    rw [hval] at hmt
    refine ⟨hval, ?_, ?_, ?_⟩
    · intro d hm
      exact resumeStage_no_restore env a s c hs hne hok hc hd d
        (runMain_restore_mem_resume env a d hm)
    · intro hle
      have h1 := hmt.1 (by omega)
      simpa using h1
    · intro ep hm
      have h1 := hmt.2 ep hm
      simpa using h1

/-- Witness for the amended C7: checkpoint path `/w/epoch_3`, whose
resolved form ends in the digit 3; training restores from epoch 3 and
the loop begins at epoch 4. -/
theorem claim_C7_amended_witness :
    startEpochOf envA argsC = 3 ∧
    Event.printRestore 3 ∈ (runMain envA argsC.toNamespace).tr ∧
    Event.modelTrain 4 ∈ (runMain envA argsC.toNamespace).tr :=
  have h := (claim_C7_amended envA argsC "/w/epoch_3" '3'
    (by decide) (by decide) (Or.inl ⟨rfl, Or.inl rfl⟩)
    (by decide)).1 3 (by decide)
  ⟨h.1, h.2.1, h.2.2.1 (by decide)⟩

/-! ## The dev-sampler batch size -/

theorem saveBlock_devSampler (env : Env) (ns : NS) (ep : Int) (bs : Int)
    (hr : env.localRank = 0)
    (hbs : nsLookup ns "batch_size" = some (PyVal.int bs)) :
    Event.buildDevSampler (devBatchSize bs) false ∈
      (saveBlock env ns ep).tr := by
  unfold saveBlock
  rw [if_neg (by simp [hr])]
  rw [Res.bind_of_ok (a := PyVal.int bs) (by simp [getattrR, hbs])]
  simp [getattrR, emit, Res.tr_bind, PyVal.toInt]

theorem devBatchSize_identity (bs : Int) :
    4 * devBatchSize bs + Int.fmod bs 4 = bs ∧
    0 ≤ Int.fmod bs 4 ∧ Int.fmod bs 4 < 4 := by
  refine ⟨?_, Int.fmod_nonneg' bs (by omega),
    Int.fmod_lt_of_pos bs (by omega)⟩
  have h := Int.fdiv_add_fmod bs 4
  unfold devBatchSize
  omega

/-- Counterexample to C8 as stated: `--batch-size -1` is accepted by the
parser (argparse's int converter), is at most 3, yet the dev sampler
batch size `-1 // 4` is `-1`, not 0. -/
theorem claim_C8_counterexample :
    devBatchSize (-1) = -1 ∧ (-1 : Int) ≤ 3 ∧
    ¬ devBatchSize (-1) = 0 := by decide

/-- C8 amended: the dev sampler is constructed with batch size
`args.batch_size // 4` (Python floor division): for batch_size ≥ 4 this
is the floor of batch_size/4 (so at least 1), for 0 ≤ batch_size ≤ 3 it
is 0, and for negative batch_size it is negative. -/
theorem claim_C8_amended :
    (∀ bs : Int, 4 ≤ bs →
      1 ≤ devBatchSize bs ∧ 4 * devBatchSize bs ≤ bs ∧
        bs < 4 * (devBatchSize bs + 1)) ∧
    (∀ bs : Int, 0 ≤ bs → bs ≤ 3 → devBatchSize bs = 0) ∧
    (∀ bs : Int, bs < 0 → devBatchSize bs < 0) ∧
    (∀ (env : Env) (ns : NS) (ep : Int) (bs : Int), env.localRank = 0 →
      nsLookup ns "batch_size" = some (PyVal.int bs) →
      Event.buildDevSampler (devBatchSize bs) false ∈
        (saveBlock env ns ep).tr) := by
  refine ⟨?_, ?_, ?_, saveBlock_devSampler⟩
  · intro bs hbs
    have h := devBatchSize_identity bs
    omega
  · intro bs h0 h3
    have h := devBatchSize_identity bs
    omega
  · intro bs hneg
    have h := devBatchSize_identity bs
    omega

/-- Witness for the amended C8 at the default batch size 64 and at 2. -/
theorem claim_C8_amended_witness :
    (1 ≤ devBatchSize 64 ∧ 4 * devBatchSize 64 ≤ 64 ∧
      (64 : Int) < 4 * (devBatchSize 64 + 1)) ∧
    devBatchSize 2 = 0 ∧
    Event.buildDevSampler (devBatchSize 64) false ∈
      (saveBlock envA argsA.toNamespace 1).tr :=
  ⟨claim_C8_amended.1 64 (by decide),
   claim_C8_amended.2.1 2 (by decide) (by decide),
   claim_C8_amended.2.2.2 envA argsA.toNamespace 1 64 (by decide) (by decide)⟩

/-! ## Stage ordering of a whole run -/

theorem preTrace_stages (env : Env) (a : Args) :
    (preTrace env a).map stageOf =
      [0, 0, 1, 1, 1, 2, 2, 2, 2, 3, 4, 5, 5, 5, 6] := rfl

theorem midTrace_stages (a : Args) :
    (midTrace a).map stageOf = [8, 8, 8, 8, 9, 9] := rfl

theorem sorted_append_of (l1 l2 : List Nat)
    (h1 : List.Sorted (fun x y : Nat => x ≤ y) l1)
    (h2 : List.Sorted (fun x y : Nat => x ≤ y) l2)
    (hb : ∀ x ∈ l1, ∀ y ∈ l2, x ≤ y) :
    List.Sorted (fun x y : Nat => x ≤ y) (l1 ++ l2) :=
  List.pairwise_append.mpr ⟨h1, h2, hb⟩

theorem runMain_stages_sorted (env : Env) (a : Args) :
    List.Sorted (fun x y : Nat => x ≤ y)
      ((runMain env a.toNamespace).tr.map stageOf) := by
  have hpre : List.Sorted (fun x y : Nat => x ≤ y)
      ((preTrace env a).map stageOf) := by
    rw [preTrace_stages]; decide
  have hpre6 : ∀ x ∈ (preTrace env a).map stageOf, x ≤ 6 := by
    rw [preTrace_stages]; decide
  have hres7 : ∀ x ∈ (resumeStage env a.toNamespace).tr.map stageOf,
      x = 7 := by
    intro x hx
    obtain ⟨e, he, hxe⟩ := List.mem_map.mp hx
    rw [← hxe]
    exact isResume_stage7 e (resumeStage_events env _ e he)
  rcases runMain_decomp env a with ⟨ex, _, heq⟩ | ⟨ns2, se, _, hshape, heq⟩
  · rw [heq]
    simp only [Res.tr_mk, List.map_append]
    apply sorted_append_of
    · exact hpre
    · exact sorted_all_eq _ 7 hres7
    · intro x hx y hy
      rw [hres7 y hy]
      exact Nat.le_trans (hpre6 x hx) (by omega)
  · rw [heq]
    have hsf := lookup_save_freq_shape env a ns2 hshape
    have hloop9 : ∀ x ∈ (Event.getattr "epochs" ::
        (epochLoop env ns2 (pyRange (se + 1) (a.epochs + 1))).tr).map stageOf,
        x = 9 := by
      intro x hx
      obtain ⟨e, he, hxe⟩ := List.mem_map.mp hx
      rw [← hxe]
      rcases List.mem_cons.mp he with he2 | he2
      · subst he2; rfl
      · exact isLoop_stage9 e (epochLoop_events env ns2 _ e hsf he2)
    have hmid : List.Sorted (fun x y : Nat => x ≤ y)
        ((midTrace a).map stageOf) := by
      rw [midTrace_stages]; decide
    have hmid89 : ∀ x ∈ (midTrace a).map stageOf, 8 ≤ x ∧ x ≤ 9 := by
      rw [midTrace_stages]; decide
    simp only [Res.tr_mk, List.append_assoc, List.map_append]
    apply sorted_append_of
    · exact hpre
    · apply sorted_append_of
      · exact sorted_all_eq _ 7 hres7
      · apply sorted_append_of
        · exact hmid
        · exact sorted_all_eq _ 9 hloop9
        · intro x hx y hy
          rw [hloop9 y hy]
          exact (hmid89 x hx).2
      · intro x hx y hy
        rw [hres7 x hx]
        rcases List.mem_append.mp hy with hy2 | hy2
        · exact Nat.le_trans (by omega) (hmid89 y hy2).1
        · rw [hloop9 y hy2]; omega
    · intro x hx y hy
      have hx6 := hpre6 x hx
      rcases List.mem_append.mp hy with hy2 | hy2
      · rw [hres7 y hy2]; omega
      · rcases List.mem_append.mp hy2 with hy3 | hy3
        · have h8 := (hmid89 y hy3).1; omega
        · have h9 := hloop9 y hy3; omega

theorem resumeStage_head (env : Env) (ns : NS) :
    ∃ rest,
      (resumeStage env ns).tr = Event.getattr "load_checkpoint" :: rest := by
  unfold resumeStage
  rw [Res.tr_bind]
  exact ⟨_, rfl⟩

/-- C5 amended: the stages of `main` execute in the fixed source order —
device setup, distributed init, dataset loads, model, optimizer, loss,
optional checkpoint resume, sampler/loader, training loop — and every
run that reaches the loop performs each of them; but the loop aborts
with an `AttributeError` at the save-frequency check at the end of its
first epoch, so the periodic evaluation and checkpoint saving are never
performed. -/
theorem claim_C5_amended :
    (∀ (env : Env) (a : Args),
      List.Sorted (fun x y : Nat => x ≤ y)
        ((runMain env a.toNamespace).tr.map stageOf)) ∧
    (∀ (env : Env) (a : Args), preLoopOk env a →
      startEpochOf env a + 1 ≤ a.epochs →
      env.stepsPerEpoch = 0 ∨ a.log_freq ≠ 0 →
      Event.setDevice a.device ∈ (runMain env a.toNamespace).tr ∧
      Event.initParallelEnv ∈ (runMain env a.toNamespace).tr ∧
      Event.loadVoxCeleb "train" a.data_dir ∈ (runMain env a.toNamespace).tr ∧
      Event.loadVoxCeleb "dev" a.data_dir ∈ (runMain env a.toNamespace).tr ∧
      Event.buildEcapaTdnn ∈ (runMain env a.toNamespace).tr ∧
      Event.buildSpeakerId ∈ (runMain env a.toNamespace).tr ∧
      Event.buildOptimizer ∈ (runMain env a.toNamespace).tr ∧
      Event.buildCriterion ∈ (runMain env a.toNamespace).tr ∧
      Event.getattr "load_checkpoint" ∈ (runMain env a.toNamespace).tr ∧
      Event.buildTrainSampler a.batch_size true ∈
        (runMain env a.toNamespace).tr ∧
      Event.buildTrainLoader a.num_workers ∈ (runMain env a.toNamespace).tr ∧
      Event.timerStart ∈ (runMain env a.toNamespace).tr ∧
      Event.modelTrain (startEpochOf env a + 1) ∈
        (runMain env a.toNamespace).tr ∧
      (runMain env a.toNamespace).out =
        Except.error (PyExc.attributeError "save_freq") ∧
      List.filter isEvalEvent (runMain env a.toNamespace).tr = [] ∧
      List.filter isSaveEvent (runMain env a.toNamespace).tr = []) := by
  refine ⟨runMain_stages_sorted, ?_⟩
  intro env a hpre hep hlf
  obtain ⟨ns2, btr, ex, hshape, hro, heq, hbcl, hbex⟩ :=
    runMain_run env a hpre hep
  have hexe := hbex hlf
  subst hexe
  obtain ⟨rrest, hrh⟩ := resumeStage_head env a.toNamespace
  have hfilters : ∀ p : Event → Bool,
      (∀ e, isPreEvent e = true → p e = false) →
      (∀ e, isResumeEvent e = true → p e = false) →
      (∀ e, isMidEvent e = true → p e = false) →
      (∀ e, isLoopEvent e = true → p e = false) →
      p (Event.getattr "epochs") = false →
      p (Event.modelTrain (startEpochOf env a + 1)) = false →
      List.filter p (runMain env a.toNamespace).tr = [] := by
    intro p hp hr hm hl hge hmt
    rw [heq]
    apply filter_nil_of_all
    intro e he
    simp only [Res.tr_mk, List.append_assoc, List.mem_append,
      List.mem_cons] at he
    rcases he with he | he | he | he | he | he
    · exact hp e (preTrace_mem_events env a e he)
    · exact hr e (resumeStage_events env _ e he)
    · exact hm e (midTrace_mem_events env a e he)
    · subst he; exact hge
    · subst he; exact hmt
    · exact hl e (isBatch_isLoop e (hbcl e he))
  refine ⟨?_, ?_, ?_, ?_, ?_, ?_, ?_, ?_, ?_, ?_, ?_, ?_, ?_, ?_, ?_, ?_⟩
  · rw [heq]; simp [preTrace]
  · rw [heq]; simp [preTrace]
  · rw [heq]; simp [preTrace]
  · rw [heq]; simp [preTrace]
  · rw [heq]; simp [preTrace]
  · rw [heq]; simp [preTrace]
  · rw [heq]; simp [preTrace]
  · rw [heq]; simp [preTrace]
  · rw [heq, hrh]; simp
  · rw [heq]; simp [midTrace]
  · rw [heq]; simp [midTrace]
  · rw [heq]; simp [midTrace]
  · rw [heq]; simp
  · rw [heq]
  · exact hfilters isEvalEvent isPre_not_eval isResume_not_eval
      isMid_not_eval isLoop_not_eval rfl rfl
  · exact hfilters isSaveEvent isPre_not_save isResume_not_save
      isMid_not_save isLoop_not_save rfl rfl

/-- Witness for the amended C5 at the parser defaults in a single-process
one-batch environment. -/
theorem claim_C5_amended_witness :
    Event.setDevice argsA.device ∈ (runMain envA argsA.toNamespace).tr :=
  (claim_C5_amended.2 envA argsA (fun s hs _ => Option.noConfusion hs)
    (by decide) (Or.inr (by decide))).1

end VoxTrain
